import Mathlib

/-!
Verification of the streaming-prediction client SDK.

The development shallowly embeds the TypeScript sources:

* `PromptPreprocessController`, `PredictionProcessStatusController`,
  `PredictionProcessCitationBlockController` and
  `PredictionProcessDebugInfoBlockController` (the preprocess-controller file):
  the mutable object graph is embedded as one explicit state record holding an
  arena of status nodes; the `coprocessor.handleUpdate` sink is embedded as the
  list of updates handled so far; `createId`'s calls to `Date.now()` and
  `Math.random()` are embedded as an oracle stream `idEntropy : Nat → Nat × String`
  giving, for the n-th `createId` call, the clock value and the decimal rendering
  of the random number.  Methods that can `throw` return the post-state paired
  with `Except String _` (JavaScript mutations performed before a throw are kept
  in the returned state).
* `LLMModel.complete` / `LLMModel.respond`: the external validator
  (`validateMethodParamsOrThrow`) is passed as an abstract validate-or-reject
  function, and the channel substrate is embedded as the list of channel
  actions the call performs.
* `UtilBinary.check`: `fs/promises`' `access` is embedded with JavaScript
  semantics made explicit: called with a string path it never throws
  synchronously; failure is reported by the returned promise rejecting later.
* `OngoingPrediction` (its source file is not among the provided sources) is
  modelled from the spec, see the doc comments in that section.
-/

/-! ## Status step states (shared types) -/

/-- Status of a status step, from the shared types' `StatusStepStatus`. -/
inductive StatusStepStatus
  | waiting
  | loading
  | done
  | canceled
  | error
deriving DecidableEq

/-- State of a status step (`StatusStepState` in the shared types): a status
plus the display text. -/
structure StatusStepState where
  status : StatusStepStatus
  text : String
deriving DecidableEq

/-- Insertion location in the preprocessor update wire shape:
`{type: "afterId", id}`. -/
inductive Location
  | afterId (id : String)
deriving DecidableEq

/-- A `PromptPreprocessorUpdate` as emitted to `coprocessor.handleUpdate`:
tagged variants `status.create`, `status.update`, `citationBlock.create`,
`debugInfoBlock.create`. -/
inductive Update
  | statusCreate (id : String) (state : StatusStepState)
      (location : Option Location) (indentation : Option Nat)
  | statusUpdate (id : String) (state : StatusStepState)
  | citationBlockCreate (id : String) (citedText : String) (source : String)
  | debugInfoBlockCreate (id : String) (debugInfo : String)
deriving DecidableEq

/-- The state of one `PredictionProcessStatusController` object: its `id`,
`indentation`, `lastState`, and its `lastSubStatus` reference.  Objects live in
an arena (`PromptPreprocessController.nodes`, indexed in creation order), so
`lastSubStatus` is an arena index; a freshly created controller has
`this.lastSubStatus = this`, i.e. `lastSubStatus` equal to its own index. -/
structure PredictionProcessStatusController where
  id : String
  indentation : Nat
  lastState : StatusStepState
  lastSubStatus : Nat
deriving DecidableEq

instance : Inhabited PredictionProcessStatusController :=
  ⟨⟨"", 0, ⟨.waiting, ""⟩, 0⟩⟩

/-- One entry of `PromptPreprocessController.stepControllers`: a registered
status controller (by arena index), citation block controller, or debug info
block controller (the latter two store only their id and are stateless). -/
inductive StepRef
  | status (k : Nat)
  | citation (id : String)
  | debug (id : String)
deriving DecidableEq

/-- `createId`: `` `${Date.now()}-${Math.random()}` `` rendered from the
oracle's clock value and random-number rendering for that call. -/
def createId (t : Nat) (r : String) : String :=
  toString t ++ "-" ++ r

/-- State of a `PromptPreprocessController` together with all status
controllers created during the request (the arena `nodes`, in creation order;
note that `stepControllers` registers only the controllers created through
`createStatus` / `createCitationBlock` / `createDebugInfoBlock`, exactly as in
the source — `addSubStatus` does not push onto `stepControllers`).  `handled`
is the sequence of updates delivered to `coprocessor.handleUpdate`. -/
structure PromptPreprocessController where
  idEntropy : Nat → Nat × String
  calls : Nat := 0
  endedFlag : Bool := false
  nodes : List PredictionProcessStatusController := []
  stepControllers : List StepRef := []
  handled : List Update := []

namespace PromptPreprocessController

/-- A fresh controller (constructor) with the given entropy oracle. -/
def create (idEntropy : Nat → Nat × String) : PromptPreprocessController :=
  { idEntropy := idEntropy }

/-- Arena lookup with the JavaScript object-reference default (never hit by
reachable API use, where indices are always in range). -/
def nodeGetD (nodes : List PredictionProcessStatusController) (k : Nat) :
    PredictionProcessStatusController :=
  nodes.getD k default

/-- Arena lookup on a controller state. -/
def nodeD (c : PromptPreprocessController) (k : Nat) :
    PredictionProcessStatusController :=
  nodeGetD c.nodes k

/-- `hasEnded()`. -/
def hasEnded (c : PromptPreprocessController) : Bool :=
  c.endedFlag

/-- `sendUpdate(update)`: throws "Prediction process has ended." when the
controller has ended, otherwise forwards the update to
`coprocessor.handleUpdate`. -/
def sendUpdate (c : PromptPreprocessController) (u : Update) :
    Except String PromptPreprocessController :=
  if c.endedFlag then Except.error "Prediction process has ended."
  else Except.ok { c with handled := c.handled ++ [u] }

/-- Draw the next id (`createId()` consumes one oracle entry). -/
def nextId (c : PromptPreprocessController) :
    String × PromptPreprocessController :=
  (createId (c.idEntropy c.calls).1 (c.idEntropy c.calls).2,
   { c with calls := c.calls + 1 })

/-- `createStatus(initialState)`: draws an id, sends a `status.create` update
(no location, no indentation), appends the new status controller to the arena
at indentation 0 with `lastSubStatus` pointing to itself, and registers it in
`stepControllers`.  Returns the arena index of the new controller. -/
def createStatus (c : PromptPreprocessController) (initialState : StatusStepState) :
    PromptPreprocessController × Except String Nat :=
  let p := c.nextId
  match p.2.sendUpdate (Update.statusCreate p.1 initialState none none) with
  | Except.error e => (p.2, Except.error e)
  | Except.ok c2 =>
    let k := c2.nodes.length
    ({ c2 with
        nodes := c2.nodes ++ [⟨p.1, 0, initialState, k⟩],
        stepControllers := c2.stepControllers ++ [StepRef.status k] },
     Except.ok k)

/-- `createCitationBlock(citedText, source)`. -/
def createCitationBlock (c : PromptPreprocessController)
    (citedText source : String) :
    PromptPreprocessController × Except String Unit :=
  let p := c.nextId
  match p.2.sendUpdate (Update.citationBlockCreate p.1 citedText source) with
  | Except.error e => (p.2, Except.error e)
  | Except.ok c2 =>
    ({ c2 with stepControllers := c2.stepControllers ++ [StepRef.citation p.1] },
     Except.ok ())

/-- `createDebugInfoBlock(debugInfo)`. -/
def createDebugInfoBlock (c : PromptPreprocessController) (debugInfo : String) :
    PromptPreprocessController × Except String Unit :=
  let p := c.nextId
  match p.2.sendUpdate (Update.debugInfoBlockCreate p.1 debugInfo) with
  | Except.error e => (p.2, Except.error e)
  | Except.ok c2 =>
    ({ c2 with stepControllers := c2.stepControllers ++ [StepRef.debug p.1] },
     Except.ok ())

/-- `PredictionProcessStatusController.setState(state)`: assigns
`this.lastState = state` first, then calls `sendUpdate` (which may throw after
the assignment has already happened). -/
def setState (c : PromptPreprocessController) (k : Nat) (s : StatusStepState) :
    PromptPreprocessController × Except String Unit :=
  let c1 := { c with nodes := c.nodes.set k { c.nodeD k with lastState := s } }
  match c1.sendUpdate (Update.statusUpdate (c1.nodeD k).id s) with
  | Except.ok c2 => (c2, Except.ok ())
  | Except.error e => (c1, Except.error e)

/-- `PredictionProcessStatusController.setText(text)`: mutates
`this.lastState.text = text` first, then sends a `status.update` carrying the
mutated state (the mutation survives a throw). -/
def setText (c : PromptPreprocessController) (k : Nat) (t : String) :
    PromptPreprocessController × Except String Unit :=
  let s := { (c.nodeD k).lastState with text := t }
  let c1 := { c with nodes := c.nodes.set k { c.nodeD k with lastState := s } }
  match c1.sendUpdate (Update.statusUpdate (c1.nodeD k).id s) with
  | Except.ok c2 => (c2, Except.ok ())
  | Except.error e => (c1, Except.error e)

/-- The status controller's `[ensureEnded]()` hook: if the last state's
status is `"loading"` or `"waiting"`, transition to `"canceled"` keeping the
last text; otherwise do nothing.  (The citation-block and debug-info-block
controllers' `[ensureEnded]()` hooks are no-ops.) -/
def ensureEndedStatus (c : PromptPreprocessController) (k : Nat) :
    PromptPreprocessController × Except String Unit :=
  if (c.nodeD k).lastState.status = StatusStepStatus.loading
      ∨ (c.nodeD k).lastState.status = StatusStepStatus.waiting then
    c.setState k ⟨StatusStepStatus.canceled, (c.nodeD k).lastState.text⟩
  else (c, Except.ok ())

/-- The `for (const controller of this.stepControllers)` loop of `end()`:
invokes each registered controller's `[ensureEnded]()` hook in order; an
exception aborts the loop. -/
def endRun : PromptPreprocessController → List StepRef →
    PromptPreprocessController × Except String Unit
  | c, [] => (c, Except.ok ())
  | c, StepRef.status k :: rs =>
    match c.ensureEndedStatus k with
    | (c', Except.ok _) => c'.endRun rs
    | (c', Except.error e) => (c', Except.error e)
  | c, StepRef.citation _ :: rs => c.endRun rs
  | c, StepRef.debug _ :: rs => c.endRun rs

/-- `end()`: runs every registered step controller's `[ensureEnded]()` hook,
then sets `endedFlag = true` (skipped if the loop threw). -/
def endController (c : PromptPreprocessController) :
    PromptPreprocessController × Except String Unit :=
  match c.endRun c.stepControllers with
  | (c', Except.ok _) => ({ c' with endedFlag := true }, Except.ok ())
  | (c', Except.error e) => (c', Except.error e)

/-- `getNestedLastSubStatusBlockId()`'s while loop: follow `lastSubStatus`
references until reaching a controller whose `lastSubStatus` is itself.  The
fuel bounds the walk; `nodes.length` steps always suffice on reachable states
since each non-trivial `lastSubStatus` reference points to a strictly
later-created controller. -/
def walkLastSub (nodes : List PredictionProcessStatusController) :
    Nat → Nat → Nat
  | 0, cur => cur
  | fuel + 1, cur =>
    if (nodeGetD nodes cur).lastSubStatus = cur then cur
    else walkLastSub nodes fuel (nodeGetD nodes cur).lastSubStatus

/-- `getNestedLastSubStatusBlockId()`: starting from `this.lastSubStatus`,
walk the `lastSubStatus` chain to its fixed point and return that
controller's id. -/
def getNestedLastSubStatusBlockId (c : PromptPreprocessController) (k : Nat) :
    String :=
  (nodeGetD c.nodes
    (walkLastSub c.nodes c.nodes.length (c.nodeD k).lastSubStatus)).id

/-- `addSubStatus(initialState)` on the status controller at arena index `k`:
draws an id, sends a `status.create` update located `afterId` the nested last
sub-status and indented one more than the parent, appends the new controller
to the arena (pointing `lastSubStatus` at itself), and sets the parent's
`lastSubStatus` to the new controller.  The new controller is *not* added to
`stepControllers`. -/
def addSubStatus (c : PromptPreprocessController) (k : Nat)
    (initialState : StatusStepState) :
    PromptPreprocessController × Except String Nat :=
  let p := c.nextId
  let afterId := p.2.getNestedLastSubStatusBlockId k
  let ind := (p.2.nodeD k).indentation + 1
  match p.2.sendUpdate
      (Update.statusCreate p.1 initialState (some (Location.afterId afterId))
        (some ind)) with
  | Except.error e => (p.2, Except.error e)
  | Except.ok c2 =>
    let newK := c2.nodes.length
    let c3 := { c2 with nodes :=
      c2.nodes ++ [(⟨p.1, ind, initialState, newK⟩ : PredictionProcessStatusController)] }
    (({ c3 with
        nodes := c3.nodes.set k { c3.nodeD k with lastSubStatus := newK } }),
     Except.ok newK)

end PromptPreprocessController

/-! ## LLMModel entry points (`complete`, `respond`) -/

/-- One message of an `LLMChatHistory`. -/
structure LLMChatMessage where
  role : String
  content : String
deriving DecidableEq

/-- `LLMChatHistory`. -/
def LLMChatHistory : Type := List LLMChatMessage

instance : DecidableEq LLMChatHistory := by
  unfold LLMChatHistory
  infer_instance

/-- A prediction configuration as sent to the backend.  The three fields the
entry points treat specially are explicit; every other configuration entry is
carried opaquely in `extra` (spread semantics copy them through untouched).
`none` is a field absent from the JavaScript object. -/
structure LLMChatPredictionConfig where
  stopStrings : Option (List String) := none
  inputPrefix : Option String := none
  inputSuffix : Option String := none
  extra : List (String × String) := []
deriving DecidableEq

/-- `LLMCompletionOpts`: optional config override plus optional structured
prediction setting (carried opaquely). -/
structure LLMCompletionOpts where
  config : Option LLMChatPredictionConfig := none
  structured : Option String := none
deriving DecidableEq

/-- `LLMChatResponseOpts`. -/
structure LLMChatResponseOpts where
  config : Option LLMChatPredictionConfig := none
  structured : Option String := none
deriving DecidableEq

/-- The payload of `llmPort.createChannel("predict", {...})`. -/
structure PredictChannelPayload where
  modelSpecifier : String
  history : List LLMChatMessage
  config : LLMChatPredictionConfig
  structured : Option String
deriving DecidableEq

/-- A channel-substrate action performed by an entry point.  Only channel
creation happens synchronously inside `complete` / `respond`; everything else
is wired as callbacks. -/
inductive ChannelAction
  | createChannel (operation : String) (payload : PredictChannelPayload)
deriving DecidableEq

/-- The model handle: its specifier and its `loaded` flag. -/
structure LLMModel where
  specifier : String
  loaded : Bool

namespace LLMModel

/-- The config object `complete` builds for `predict`:
`{ stopStrings: [], ...config, inputPrefix: "", inputSuffix: "" }` — the
caller's `stopStrings` wins over the empty default when present, while the
trailing literal fields overwrite any `inputPrefix` / `inputSuffix` the
caller supplied; all other entries of `config` are spread through. -/
def completeMergedConfig (config : LLMChatPredictionConfig) :
    LLMChatPredictionConfig :=
  { stopStrings := config.stopStrings.orElse fun _ => some [],
    inputPrefix := some "",
    inputSuffix := some "",
    extra := config.extra }

/-- `complete(prompt, opts)`: throws if the model is unloaded, then validates
`[prompt, opts]` (the validator is the external `validateMethodParamsOrThrow`,
passed as a validate-or-reject function), and only then opens the single
`"predict"` channel with a one-user-message history and the merged config.
Returns the outcome paired with the list of channel actions performed. -/
def complete (m : LLMModel)
    (validate : String → LLMCompletionOpts →
      Except String (String × LLMCompletionOpts))
    (prompt : String) (opts : LLMCompletionOpts) :
    Except String PredictChannelPayload × List ChannelAction :=
  if m.loaded = false then
    (Except.error "Cannot use `complete` because the model is already unloaded.",
     [])
  else
    match validate prompt opts with
    | Except.error e => (Except.error e, [])
    | Except.ok v =>
      let config := v.2.config.getD {}
      let payload : PredictChannelPayload :=
        { modelSpecifier := m.specifier,
          history := [⟨"user", v.1⟩],
          config := completeMergedConfig config,
          structured := v.2.structured }
      (Except.ok payload, [ChannelAction.createChannel "predict" payload])

/-- `respond(history, opts)`: throws if the model is unloaded (the source
reuses `complete`'s message), validates `[history, opts]`, then opens the
single `"predict"` channel passing the validated history and config through
unmodified (`config` defaults to the empty object when absent). -/
def respond (m : LLMModel)
    (validate : LLMChatHistory → LLMChatResponseOpts →
      Except String (LLMChatHistory × LLMChatResponseOpts))
    (history : LLMChatHistory) (opts : LLMChatResponseOpts) :
    Except String PredictChannelPayload × List ChannelAction :=
  if m.loaded = false then
    (Except.error "Cannot use `complete` because the model is already unloaded.",
     [])
  else
    match validate history opts with
    | Except.error e => (Except.error e, [])
    | Except.ok v =>
      let payload : PredictChannelPayload :=
        { modelSpecifier := m.specifier,
          history := v.1,
          config := v.2.config.getD {},
          structured := v.2.structured }
      (Except.ok payload, [ChannelAction.createChannel "predict" payload])

end LLMModel

/-! ## OngoingPrediction (modelled from the spec)

The class `OngoingPrediction` is imported by the entry-point file but its own
source file is not among the provided sources, so this section is modelled
from the spec (sections 3, 4.1 and 8). -/

/-- Modelled from the spec: the terminal state of an `OngoingPrediction`
(`OngoingPrediction.ts` is not among the provided sources).  On success it
carries the aggregated content together with the final statistics and model
descriptor (both opaque here); on failure, the error. -/
inductive PredictionTerminal
  | succeeded (content : String) (stats : String) (modelInfo : String)
  | failed (message : String)
deriving DecidableEq

/-- Modelled from the spec: an `OngoingPrediction` owns the ordered sequence
of received fragments and its terminal outcome (`none` while pending); it
becomes immutable once terminal. -/
structure OngoingPrediction where
  fragments : List String := []
  terminal : Option PredictionTerminal := none
deriving DecidableEq

namespace OngoingPrediction

/-- Modelled from the spec: the freshly created, pending prediction. -/
def create : OngoingPrediction := {}

/-- Modelled from the spec: `push(fragment)` appends a fragment to the
retained ordered sequence; no fragment is pushed after a terminal
transition. -/
def push (p : OngoingPrediction) (f : String) : OngoingPrediction :=
  if p.terminal.isSome then p
  else { p with fragments := p.fragments ++ [f] }

/-- Push a whole sequence of fragments in order. -/
def pushAll (p : OngoingPrediction) (fs : List String) : OngoingPrediction :=
  fs.foldl push p

/-- Modelled from the spec: `finish(stats, modelInfo)` computes the terminal
success value whose aggregated content is the concatenation of the
accumulated fragments in push order; a second terminal transition has no
effect. -/
def finish (p : OngoingPrediction) (stats modelInfo : String) :
    OngoingPrediction :=
  if p.terminal.isSome then p
  else
    let t := PredictionTerminal.succeeded (String.join p.fragments) stats modelInfo
    { p with terminal := some t }

/-- Modelled from the spec: `fail(error)` rejects all consumers; a second
terminal transition has no effect. -/
def fail (p : OngoingPrediction) (message : String) : OngoingPrediction :=
  if p.terminal.isSome then p
  else { p with terminal := some (PredictionTerminal.failed message) }

/-- Modelled from the spec: the awaited view resolves with the terminal
success value (and rejects on failure); `none` while still pending. -/
def awaited (p : OngoingPrediction) : Option PredictionTerminal :=
  p.terminal

/-- How one iteration of the fragment sequence ends. -/
inductive IterOutcome
  | pending
  | completed
  | errored (message : String)
deriving DecidableEq

/-- Modelled from the spec: a consumer that began iterating at `startState`
first replays the buffered fragments, then receives each fragment pushed
after it began, in push order. -/
def iterationFragments (startState : OngoingPrediction)
    (laterFragments : List String) : List String :=
  startState.fragments ++ laterFragments

/-- Modelled from the spec: an iteration still running when the prediction
reaches its terminal state completes normally on success and raises the
error on failure. -/
def iterOutcome (p : OngoingPrediction) : IterOutcome :=
  match p.terminal with
  | some (PredictionTerminal.succeeded _ _ _) => IterOutcome.completed
  | some (PredictionTerminal.failed e) => IterOutcome.errored e
  | none => IterOutcome.pending

end OngoingPrediction

/-! ## UtilBinary -/

/-- A JavaScript promise value, abstracted to whether it will eventually
reject.  A promise that is created and never awaited delivers neither its
value nor its rejection to the creating code. -/
structure JsPromise where
  rejects : Bool
deriving DecidableEq

/-- `fs/promises`' `access(path)` as called from JavaScript with a string
path: it never throws synchronously — it returns a promise that later
rejects exactly when the path is not accessible.  The `Except` layer is the
synchronous-exception layer of the caller's `try` block. -/
def fsAccess (fileExistsAt : String → Bool) (path : String) :
    Except String JsPromise :=
  Except.ok ⟨!fileExistsAt path⟩

/-- The path computed by the `UtilBinary` constructor:
`join(homedir(), ".cache", "lm-studio", ".internal", "utils", name)` with
`".exe"` appended on win32. -/
def utilBinaryPath (platformIsWin32 : Bool) (homedir name : String) : String :=
  homedir ++ "/.cache/lm-studio/.internal/utils/" ++
    (if platformIsWin32 then name ++ ".exe" else name)

/-- A `UtilBinary`: its name and its computed path. -/
structure UtilBinary where
  name : String
  path : String
deriving DecidableEq

/-- The `UtilBinary` constructor. -/
def UtilBinary.create (platformIsWin32 : Bool) (homedir name : String) :
    UtilBinary :=
  ⟨name, utilBinaryPath platformIsWin32 homedir name⟩

/-- The message thrown by `check`'s catch branch. -/
def cannotLocateMessage (name : String) : String :=
  "Cannot locate required dependencies (" ++ name ++
    "). Please make sure you have the latest version of LM Studio installed."

/-- `UtilBinary.check()`: `try { access(this.path); } catch { throw ... }` —
the promise returned by `access` is discarded without `await`, so only a
synchronous throw of `access` could reach the catch branch. -/
def UtilBinary.check (b : UtilBinary) (fileExistsAt : String → Bool) :
    Except String Unit :=
  match fsAccess fileExistsAt b.path with
  | Except.ok _ => Except.ok ()
  | Except.error _ => Except.error (cannotLocateMessage b.name)

/-- The variant with `await access(this.path)`: the promise's rejection is
turned into an exception the catch branch sees.  (Not what the source does;
stated for contrast.) -/
def UtilBinary.checkIfAwaited (b : UtilBinary) (fileExistsAt : String → Bool) :
    Except String Unit :=
  match fsAccess fileExistsAt b.path with
  | Except.ok p =>
    if p.rejects then Except.error (cannotLocateMessage b.name)
    else Except.ok ()
  | Except.error _ => Except.error (cannotLocateMessage b.name)

/-! ## Concrete runs (used as witnesses and counterexamples) -/

/-- A deterministic entropy oracle: the n-th `createId` call sees clock value
`n` and random rendering `"r"`, so ids are `"0-r"`, `"1-r"`, …. -/
def entropySeq : Nat → Nat × String := fun n => (n, "r")

/-- An entropy oracle with a frozen clock and a repeated random value: every
`createId` call produces the same id (`Date.now()` returning the same
millisecond twice and `Math.random()` repeating a value). -/
def entropyConst : Nat → Nat × String := fun _ => (0, "05")

/-- A fresh controller over the sequential oracle. -/
def demo0 : PromptPreprocessController :=
  PromptPreprocessController.create entropySeq

/-- `createStatus` of a waiting parent step P (arena index 0, id "0-r"). -/
def demoParent := demo0.createStatus ⟨StatusStepStatus.waiting, "P"⟩

/-- `addSubStatus` on P of a waiting child (arena index 1, id "1-r"); the
child is not registered in `stepControllers`. -/
def demoChild := demoParent.1.addSubStatus 0 ⟨StatusStepStatus.waiting, "child"⟩

/-- `end()` after creating P and its sub-status child. -/
def demoEnded := demoChild.1.endController

/-- C1 under P (arena index 1, id "1-r"). -/
def demoSib1 := demoParent.1.addSubStatus 0 ⟨StatusStepStatus.waiting, "C1"⟩

/-- C2 under P after C1 (arena index 2, id "2-r"). -/
def demoSib2 := demoSib1.1.addSubStatus 0 ⟨StatusStepStatus.waiting, "C2"⟩

/-- Grandchild G under C1 (arena index 2, id "2-r"). -/
def demoG := demoSib1.1.addSubStatus 1 ⟨StatusStepStatus.loading, "G"⟩

/-- C2 under P created after G: the deepest-nested last descendant of P is
now G. -/
def demoNested := demoG.1.addSubStatus 0 ⟨StatusStepStatus.waiting, "C2"⟩

/-- Controller with registered steps in states waiting / loading / done plus
a citation block and a debug info block. -/
def mixA := demo0.createStatus ⟨StatusStepStatus.waiting, "w"⟩

/-- Second registered step, loading. -/
def mixB := mixA.1.createStatus ⟨StatusStepStatus.loading, "l"⟩

/-- Third registered step, done. -/
def mixC := mixB.1.createStatus ⟨StatusStepStatus.done, "d"⟩

/-- A citation block on the same controller. -/
def mixD := mixC.1.createCitationBlock "cited" "src"

/-- A debug info block on the same controller. -/
def mixE := mixD.1.createDebugInfoBlock "dbg"

/-- Two `createStatus` calls under the frozen oracle: both draw the same
`(Date.now(), Math.random())` pair. -/
def collideA :=
  (PromptPreprocessController.create entropyConst).createStatus
    ⟨StatusStepStatus.waiting, "a"⟩

/-- The second status created from the same frozen oracle. -/
def collideB := collideA.1.createStatus ⟨StatusStepStatus.waiting, "b"⟩

/-- One step-creating call on the controller: `createStatus`,
`addSubStatus` (on the status controller at the given arena index),
`createCitationBlock` or `createDebugInfoBlock`. -/
inductive StepOp
  | createStatus (st : StatusStepState)
  | addSubStatus (parent : Nat) (st : StatusStepState)
  | createCitationBlock (citedText source : String)
  | createDebugInfoBlock (info : String)

/-- Apply one step-creating call to the controller state. -/
def applyStepOp (c : PromptPreprocessController) : StepOp → PromptPreprocessController
  | StepOp.createStatus st => (c.createStatus st).1
  | StepOp.addSubStatus k st => (c.addSubStatus k st).1
  | StepOp.createCitationBlock t s => (c.createCitationBlock t s).1
  | StepOp.createDebugInfoBlock i => (c.createDebugInfoBlock i).1

/-- Run a sequence of step-creating calls in order. -/
def runStepOps (c : PromptPreprocessController) :
    List StepOp → PromptPreprocessController
  | [] => c
  | op :: rest => runStepOps (applyStepOp c op) rest

/-- The identity carried by a creation update (every step-creating call
emits exactly one such update). -/
def createdIdOf : Update → Option String
  | Update.statusCreate i _ _ _ => some i
  | Update.citationBlockCreate i _ _ => some i
  | Update.debugInfoBlockCreate i _ => some i
  | Update.statusUpdate _ _ => none

/-- The identity carried by a `status.create` update. -/
def statusCreatedIdOf : Update → Option String
  | Update.statusCreate i _ _ _ => some i
  | _ => none

/-- The identity carried by a `citationBlock.create` update. -/
def citationCreatedIdOf : Update → Option String
  | Update.citationBlockCreate i _ _ => some i
  | _ => none

/-- The identity carried by a `debugInfoBlock.create` update. -/
def debugCreatedIdOf : Update → Option String
  | Update.debugInfoBlockCreate i _ => some i
  | _ => none

/-- All generated step identities, in creation order, as carried by the
emitted creation updates. -/
def createdIds (us : List Update) : List String :=
  us.filterMap createdIdOf

/-- The status-step identities among the emitted creation updates. -/
def statusCreatedIds (us : List Update) : List String :=
  us.filterMap statusCreatedIdOf

/-- The citation-block identities among the emitted creation updates. -/
def citationCreatedIds (us : List Update) : List String :=
  us.filterMap citationCreatedIdOf

/-- The debug-info-block identities among the emitted creation updates. -/
def debugCreatedIds (us : List Update) : List String :=
  us.filterMap debugCreatedIdOf

/-- The identity of a registered citation block controller. -/
def citationIdOf : StepRef → Option String
  | StepRef.citation i => some i
  | _ => none

/-- The identity of a registered debug info block controller. -/
def debugIdOf : StepRef → Option String
  | StepRef.debug i => some i
  | _ => none

/-- The citation block identities registered in `stepControllers`. -/
def citationIds (rs : List StepRef) : List String :=
  rs.filterMap citationIdOf

/-- The debug info block identities registered in `stepControllers`. -/
def debugIds (rs : List StepRef) : List String :=
  rs.filterMap debugIdOf

/-- An oracle with the clock frozen inside one millisecond (value 5): the
first `Math.random()` renders to 0.9, later ones to 0.10. -/
def entropyFrozenClock : Nat → Nat × String :=
  fun n => (5, if n = 0 then "0.9" else "0.10")

/-- First status under the frozen clock: id "5-0.9". -/
def demoMonoA :=
  (PromptPreprocessController.create entropyFrozenClock).createStatus
    ⟨StatusStepStatus.waiting, "a"⟩

/-- Second status under the frozen clock: id "5-0.10", lexicographically
smaller than the earlier-created "5-0.9". -/
def demoMonoB := demoMonoA.1.createStatus ⟨StatusStepStatus.waiting, "b"⟩

/-! ## Lemmas about the preprocess controller -/

/-- What the `[ensureEnded]()` hook does to a status node: a node whose
status is `loading` or `waiting` is transitioned to `canceled` keeping its
text; any other node is left unchanged. -/
def cancelIfOpen (n : PredictionProcessStatusController) :
    PredictionProcessStatusController :=
  if n.lastState.status = StatusStepStatus.loading
      ∨ n.lastState.status = StatusStepStatus.waiting then
    { n with lastState := ⟨StatusStepStatus.canceled, n.lastState.text⟩ }
  else n

theorem cancelIfOpen_idem (n : PredictionProcessStatusController) :
    cancelIfOpen (cancelIfOpen n) = cancelIfOpen n := by
  unfold cancelIfOpen
  by_cases h : n.lastState.status = StatusStepStatus.loading
      ∨ n.lastState.status = StatusStepStatus.waiting <;> simp [h]

theorem cancelIfOpen_not_open (n : PredictionProcessStatusController) :
    ¬ ((cancelIfOpen n).lastState.status = StatusStepStatus.loading
      ∨ (cancelIfOpen n).lastState.status = StatusStepStatus.waiting) := by
  unfold cancelIfOpen
  by_cases h : n.lastState.status = StatusStepStatus.loading
      ∨ n.lastState.status = StatusStepStatus.waiting
  · simp [h]
  · simp [h]

namespace PromptPreprocessController

theorem nodeD_of_getElem? {c : PromptPreprocessController} {k : Nat}
    {n : PredictionProcessStatusController} (h : c.nodes[k]? = some n) :
    c.nodeD k = n := by
  simp [nodeD, nodeGetD, List.getD_eq_getElem?_getD, h]

theorem sendUpdate_of_not_ended {c : PromptPreprocessController}
    (h : c.endedFlag = false) (u : Update) :
    c.sendUpdate u = Except.ok { c with handled := c.handled ++ [u] } := by
  simp [sendUpdate, h]

theorem sendUpdate_of_ended {c : PromptPreprocessController}
    (h : c.endedFlag = true) (u : Update) :
    c.sendUpdate u = Except.error "Prediction process has ended." := by
  simp [sendUpdate, h]

/-- `setState` under a live controller: the node is set, the update emitted,
and the call returns normally. -/
theorem setState_of_not_ended {c : PromptPreprocessController}
    (h : c.endedFlag = false) (k : Nat) (s : StatusStepState) :
    c.setState k s =
      ({ c with
          nodes := c.nodes.set k { c.nodeD k with lastState := s },
          handled := c.handled ++
            [Update.statusUpdate (nodeGetD (c.nodes.set k { c.nodeD k with lastState := s }) k).id s] },
       Except.ok ()) := by
  simp [setState, sendUpdate, nodeD, h]

end PromptPreprocessController

namespace PromptPreprocessController

theorem setState_fst_nodes (c : PromptPreprocessController) (k : Nat)
    (s : StatusStepState) :
    (c.setState k s).1.nodes = c.nodes.set k { c.nodeD k with lastState := s } := by
  unfold setState sendUpdate
  by_cases h : c.endedFlag <;> simp [h]

theorem setState_fst_frame (c : PromptPreprocessController) (k : Nat)
    (s : StatusStepState) :
    (c.setState k s).1.endedFlag = c.endedFlag ∧
    (c.setState k s).1.calls = c.calls ∧
    (c.setState k s).1.stepControllers = c.stepControllers ∧
    (c.setState k s).1.idEntropy = c.idEntropy ∧
    (c.setState k s).1.nodes.length = c.nodes.length := by
  unfold setState sendUpdate
  by_cases h : c.endedFlag <;> simp [h]

theorem setState_snd_of_not_ended {c : PromptPreprocessController}
    (h : c.endedFlag = false) (k : Nat) (s : StatusStepState) :
    (c.setState k s).2 = Except.ok () := by
  unfold setState sendUpdate
  simp [h]

theorem setState_handled_of_not_ended {c : PromptPreprocessController}
    (h : c.endedFlag = false) (k : Nat) (s : StatusStepState) :
    ∃ i, (c.setState k s).1.handled = c.handled ++ [Update.statusUpdate i s] := by
  unfold setState sendUpdate
  simp [h]

theorem ensureEnded_fst_nodes (c : PromptPreprocessController) (k j : Nat) :
    (c.ensureEndedStatus k).1.nodes[j]? =
      if j = k then (c.nodes[j]?).map cancelIfOpen else c.nodes[j]? := by
  unfold ensureEndedStatus
  by_cases hcond : (c.nodeD k).lastState.status = StatusStepStatus.loading
      ∨ (c.nodeD k).lastState.status = StatusStepStatus.waiting
  · rw [if_pos hcond, setState_fst_nodes]
    by_cases hj : j = k
    · subst hj
      by_cases hlt : j < c.nodes.length
      · have hget : c.nodes[j]? = some c.nodes[j] := List.getElem?_eq_getElem hlt
        have hnode : c.nodeD j = c.nodes[j] := nodeD_of_getElem? hget
        rw [if_pos rfl, hget]
        rw [List.getElem?_set_self hlt]
        simp only [Option.map_some]
        rw [hnode] at hcond ⊢
        simp [cancelIfOpen, hcond]
      · have hget : c.nodes[j]? = none := List.getElem?_eq_none (Nat.le_of_not_lt hlt)
        rw [if_pos rfl, hget]
        simp [List.getElem?_set, Nat.lt_irrefl, hlt]
    · rw [if_neg hj, List.getElem?_set_ne (fun hkj => hj hkj.symm)]
  · rw [if_neg hcond]
    by_cases hj : j = k
    · subst hj
      by_cases hlt : j < c.nodes.length
      · have hget : c.nodes[j]? = some c.nodes[j] := List.getElem?_eq_getElem hlt
        have hnode : c.nodeD j = c.nodes[j] := nodeD_of_getElem? hget
        rw [if_pos rfl, hget]
        rw [hnode] at hcond
        simp [cancelIfOpen, hcond]
      · exfalso
        apply hcond
        have : c.nodeD j = default := by
          simp [nodeD, nodeGetD, List.getD_eq_getElem?_getD,
            List.getElem?_eq_none (Nat.le_of_not_lt hlt)]
        rw [this]
        right
        rfl
    · rw [if_neg hj]

theorem ensureEnded_fst_frame (c : PromptPreprocessController) (k : Nat) :
    (c.ensureEndedStatus k).1.endedFlag = c.endedFlag ∧
    (c.ensureEndedStatus k).1.calls = c.calls ∧
    (c.ensureEndedStatus k).1.stepControllers = c.stepControllers ∧
    (c.ensureEndedStatus k).1.idEntropy = c.idEntropy ∧
    (c.ensureEndedStatus k).1.nodes.length = c.nodes.length := by
  unfold ensureEndedStatus
  by_cases hcond : (c.nodeD k).lastState.status = StatusStepStatus.loading
      ∨ (c.nodeD k).lastState.status = StatusStepStatus.waiting
  · rw [if_pos hcond]
    exact setState_fst_frame c k _
  · rw [if_neg hcond]
    exact ⟨rfl, rfl, rfl, rfl, rfl⟩

theorem ensureEnded_snd_of_not_ended {c : PromptPreprocessController}
    (h : c.endedFlag = false) (k : Nat) :
    (c.ensureEndedStatus k).2 = Except.ok () := by
  unfold ensureEndedStatus
  by_cases hcond : (c.nodeD k).lastState.status = StatusStepStatus.loading
      ∨ (c.nodeD k).lastState.status = StatusStepStatus.waiting
  · rw [if_pos hcond]
    exact setState_snd_of_not_ended h k _
  · rw [if_neg hcond]

theorem ensureEnded_handled_of_not_ended {c : PromptPreprocessController}
    (h : c.endedFlag = false) (k : Nat) :
    ∃ us, (c.ensureEndedStatus k).1.handled = c.handled ++ us ∧
      ∀ u ∈ us, ∃ i s, u = Update.statusUpdate i s := by
  unfold ensureEndedStatus
  by_cases hcond : (c.nodeD k).lastState.status = StatusStepStatus.loading
      ∨ (c.nodeD k).lastState.status = StatusStepStatus.waiting
  · rw [if_pos hcond]
    obtain ⟨i, hi⟩ := setState_handled_of_not_ended h k
      ⟨StatusStepStatus.canceled, (c.nodeD k).lastState.text⟩
    exact ⟨_, hi, by simp⟩
  · rw [if_neg hcond]
    exact ⟨[], by simp, by simp⟩

theorem ensureEnded_noop {c : PromptPreprocessController} {k : Nat}
    (hcond : ¬ ((c.nodeD k).lastState.status = StatusStepStatus.loading
      ∨ (c.nodeD k).lastState.status = StatusStepStatus.waiting)) :
    c.ensureEndedStatus k = (c, Except.ok ()) := by
  unfold ensureEndedStatus
  rw [if_neg hcond]

end PromptPreprocessController

namespace PromptPreprocessController

theorem endRun_fst_frame (rs : List StepRef) (c : PromptPreprocessController) :
    (c.endRun rs).1.endedFlag = c.endedFlag ∧
    (c.endRun rs).1.calls = c.calls ∧
    (c.endRun rs).1.stepControllers = c.stepControllers ∧
    (c.endRun rs).1.idEntropy = c.idEntropy ∧
    (c.endRun rs).1.nodes.length = c.nodes.length := by
  induction rs generalizing c with
  | nil => exact ⟨rfl, rfl, rfl, rfl, rfl⟩
  | cons r rs ih =>
    cases r with
    | status k =>
      rcases hs : c.ensureEndedStatus k with ⟨c', res⟩
      have hframe := ensureEnded_fst_frame c k
      rw [hs] at hframe
      cases res with
      | ok _ =>
        have : c.endRun (StepRef.status k :: rs) = c'.endRun rs := by
          simp [endRun, hs]
        rw [this]
        obtain ⟨h1, h2, h3, h4, h5⟩ := ih c'
        obtain ⟨g1, g2, g3, g4, g5⟩ := hframe
        exact ⟨h1.trans g1, h2.trans g2, h3.trans g3, h4.trans g4, h5.trans g5⟩
      | error e =>
        have : c.endRun (StepRef.status k :: rs) = (c', Except.error e) := by
          simp [endRun, hs]
        rw [this]
        exact hframe
    | citation i =>
      have : c.endRun (StepRef.citation i :: rs) = c.endRun rs := by
        simp [endRun]
      rw [this]
      exact ih c
    | debug i =>
      have : c.endRun (StepRef.debug i :: rs) = c.endRun rs := by
        simp [endRun]
      rw [this]
      exact ih c

theorem endRun_cons_status_of_not_ended {c : PromptPreprocessController}
    (h : c.endedFlag = false) (k : Nat) (rs : List StepRef) :
    c.endRun (StepRef.status k :: rs) = (c.ensureEndedStatus k).1.endRun rs := by
  rcases hs : c.ensureEndedStatus k with ⟨c', res⟩
  have hok : res = Except.ok () := by
    have := ensureEnded_snd_of_not_ended h k
    rw [hs] at this
    simpa using this
  subst hok
  simp [endRun, hs]

theorem endRun_snd_of_not_ended {c : PromptPreprocessController}
    (h : c.endedFlag = false) (rs : List StepRef) :
    (c.endRun rs).2 = Except.ok () := by
  induction rs generalizing c with
  | nil => rfl
  | cons r rs ih =>
    cases r with
    | status k =>
      rw [endRun_cons_status_of_not_ended h k rs]
      have hflag : (c.ensureEndedStatus k).1.endedFlag = false :=
        (ensureEnded_fst_frame c k).1.trans h
      exact ih hflag
    | citation i =>
      have : c.endRun (StepRef.citation i :: rs) = c.endRun rs := by
        simp [endRun]
      rw [this]
      exact ih h
    | debug i =>
      have : c.endRun (StepRef.debug i :: rs) = c.endRun rs := by
        simp [endRun]
      rw [this]
      exact ih h

theorem endRun_nodes_of_not_ended {c : PromptPreprocessController}
    (h : c.endedFlag = false) (rs : List StepRef) (j : Nat) :
    (c.endRun rs).1.nodes[j]? =
      if StepRef.status j ∈ rs then (c.nodes[j]?).map cancelIfOpen
      else c.nodes[j]? := by
  induction rs generalizing c with
  | nil => simp [endRun]
  | cons r rs ih =>
    cases r with
    | status k =>
      rw [endRun_cons_status_of_not_ended h k rs]
      have hflag : (c.ensureEndedStatus k).1.endedFlag = false :=
        (ensureEnded_fst_frame c k).1.trans h
      rw [ih hflag, ensureEnded_fst_nodes c k j]
      by_cases hjk : j = k
      · subst hjk
        rw [if_pos rfl]
        rw [if_pos (show StepRef.status j ∈ StepRef.status j :: rs by simp)]
        by_cases hmem : StepRef.status j ∈ rs
        · rw [if_pos hmem, Option.map_map]
          have hcomp : cancelIfOpen ∘ cancelIfOpen = cancelIfOpen := by
            funext n
            exact cancelIfOpen_idem n
          rw [hcomp]
        · rw [if_neg hmem]
      · have hmem_iff : (StepRef.status j ∈ StepRef.status k :: rs)
            ↔ StepRef.status j ∈ rs := by
          simp [List.mem_cons, hjk]
        by_cases hmem : StepRef.status j ∈ rs
        · rw [if_pos hmem, if_neg hjk, if_pos (hmem_iff.mpr hmem)]
        · rw [if_neg hmem, if_neg hjk, if_neg (fun hx => hmem (hmem_iff.mp hx))]
    | citation i =>
      have heq : c.endRun (StepRef.citation i :: rs) = c.endRun rs := by
        simp [endRun]
      rw [heq, ih h]
      have : (StepRef.status j ∈ StepRef.citation i :: rs)
          ↔ StepRef.status j ∈ rs := by
        simp [List.mem_cons]
      by_cases hmem : StepRef.status j ∈ rs
      · rw [if_pos hmem, if_pos (this.mpr hmem)]
      · rw [if_neg hmem, if_neg (fun hx => hmem (this.mp hx))]
    | debug i =>
      have heq : c.endRun (StepRef.debug i :: rs) = c.endRun rs := by
        simp [endRun]
      rw [heq, ih h]
      have : (StepRef.status j ∈ StepRef.debug i :: rs)
          ↔ StepRef.status j ∈ rs := by
        simp [List.mem_cons]
      by_cases hmem : StepRef.status j ∈ rs
      · rw [if_pos hmem, if_pos (this.mpr hmem)]
      · rw [if_neg hmem, if_neg (fun hx => hmem (this.mp hx))]

theorem endRun_handled_of_not_ended {c : PromptPreprocessController}
    (h : c.endedFlag = false) (rs : List StepRef) :
    ∃ us, (c.endRun rs).1.handled = c.handled ++ us ∧
      ∀ u ∈ us, ∃ i s, u = Update.statusUpdate i s := by
  induction rs generalizing c with
  | nil => exact ⟨[], by simp [endRun], by simp⟩
  | cons r rs ih =>
    cases r with
    | status k =>
      rw [endRun_cons_status_of_not_ended h k rs]
      have hflag : (c.ensureEndedStatus k).1.endedFlag = false :=
        (ensureEnded_fst_frame c k).1.trans h
      obtain ⟨us1, hus1, hall1⟩ := ensureEnded_handled_of_not_ended h k
      obtain ⟨us2, hus2, hall2⟩ := ih hflag
      refine ⟨us1 ++ us2, ?_, ?_⟩
      · rw [hus2, hus1, List.append_assoc]
      · intro u hu
        rcases List.mem_append.mp hu with hu | hu
        · exact hall1 u hu
        · exact hall2 u hu
    | citation i =>
      have heq : c.endRun (StepRef.citation i :: rs) = c.endRun rs := by
        simp [endRun]
      rw [heq]
      exact ih h
    | debug i =>
      have heq : c.endRun (StepRef.debug i :: rs) = c.endRun rs := by
        simp [endRun]
      rw [heq]
      exact ih h

theorem endRun_noop (c : PromptPreprocessController) (rs : List StepRef)
    (hall : ∀ k, StepRef.status k ∈ rs →
      ¬ ((c.nodeD k).lastState.status = StatusStepStatus.loading
        ∨ (c.nodeD k).lastState.status = StatusStepStatus.waiting)) :
    c.endRun rs = (c, Except.ok ()) := by
  induction rs with
  | nil => rfl
  | cons r rs ih =>
    cases r with
    | status k =>
      have hk := hall k (by simp)
      have hnoop := ensureEnded_noop hk
      have : c.endRun (StepRef.status k :: rs) = c.endRun rs := by
        simp [endRun, hnoop]
      rw [this]
      exact ih (fun k' hk' => hall k' (List.mem_cons_of_mem _ hk'))
    | citation i =>
      have : c.endRun (StepRef.citation i :: rs) = c.endRun rs := by
        simp [endRun]
      rw [this]
      exact ih (fun k' hk' => hall k' (List.mem_cons_of_mem _ hk'))
    | debug i =>
      have : c.endRun (StepRef.debug i :: rs) = c.endRun rs := by
        simp [endRun]
      rw [this]
      exact ih (fun k' hk' => hall k' (List.mem_cons_of_mem _ hk'))

theorem endController_of_not_ended {c : PromptPreprocessController}
    (h : c.endedFlag = false) :
    c.endController =
      ({ (c.endRun c.stepControllers).1 with endedFlag := true },
       Except.ok ()) := by
  rcases hs : c.endRun c.stepControllers with ⟨c', res⟩
  have hok : res = Except.ok () := by
    have := endRun_snd_of_not_ended h c.stepControllers
    rw [hs] at this
    simpa using this
  subst hok
  simp [endController, hs]

theorem endedFlag_update_self (c : PromptPreprocessController)
    (h : c.endedFlag = true) : { c with endedFlag := true } = c := by
  cases c
  simp_all

end PromptPreprocessController

namespace PromptPreprocessController

theorem createStatus_fst_of_not_ended {c : PromptPreprocessController}
    (h : c.endedFlag = false) (s : StatusStepState) :
    (c.createStatus s).1 =
      { c with
          calls := c.calls + 1,
          nodes := c.nodes ++
            [⟨createId (c.idEntropy c.calls).1 (c.idEntropy c.calls).2, 0, s,
              c.nodes.length⟩],
          stepControllers :=
            c.stepControllers ++ [StepRef.status c.nodes.length],
          handled := c.handled ++
            [Update.statusCreate
              (createId (c.idEntropy c.calls).1 (c.idEntropy c.calls).2) s none
              none] } := by
  simp [createStatus, nextId, sendUpdate, h]

end PromptPreprocessController

theorem range_map_shift {α : Type} (F : Nat → α) (m n : Nat) :
    (List.range (n + 1)).map (fun i => F (m + i)) =
      F m :: (List.range n).map (fun i => F (m + 1 + i)) := by
  rw [List.range_succ_eq_map, List.map_cons, List.map_map]
  congr 1
  apply List.map_congr_left
  intro a _
  have hadd : m + (a + 1) = m + 1 + a := by omega
  simp [Function.comp, Nat.succ_eq_add_one, hadd]

theorem OngoingPrediction.pushAll_spec (fs : List String)
    (p : OngoingPrediction) (h : p.terminal = none) :
    (p.pushAll fs).fragments = p.fragments ++ fs ∧
    (p.pushAll fs).terminal = none := by
  induction fs generalizing p with
  | nil => exact ⟨by simp [OngoingPrediction.pushAll], h⟩
  | cons f fs ih =>
    have hstep : p.push f = { p with fragments := p.fragments ++ [f] } := by
      simp [OngoingPrediction.push, h]
    have h2 : (p.push f).terminal = none := by
      rw [hstep]
      exact h
    have hrec := ih (p.push f) h2
    have hfold : p.pushAll (f :: fs) = (p.push f).pushAll fs := by
      simp [OngoingPrediction.pushAll]
    rw [hfold]
    refine ⟨?_, hrec.2⟩
    rw [hrec.1, hstep]
    simp

namespace PromptPreprocessController

theorem addSubStatus_of_not_ended {c : PromptPreprocessController}
    (h : c.endedFlag = false) (k : Nat) (st : StatusStepState) :
    (c.addSubStatus k st).1.handled = c.handled ++
      [Update.statusCreate
        (createId (c.idEntropy c.calls).1 (c.idEntropy c.calls).2) st
        (some (Location.afterId (c.getNestedLastSubStatusBlockId k)))
        (some ((c.nodeD k).indentation + 1))] ∧
    (c.addSubStatus k st).2 = Except.ok c.nodes.length := by
  constructor <;>
    simp [addSubStatus, nextId, sendUpdate, h, getNestedLastSubStatusBlockId,
      nodeD]

end PromptPreprocessController

namespace PromptPreprocessController

theorem createCitationBlock_fst_of_not_ended {c : PromptPreprocessController}
    (h : c.endedFlag = false) (t s : String) :
    (c.createCitationBlock t s).1 =
      { c with
          calls := c.calls + 1,
          stepControllers := c.stepControllers ++
            [StepRef.citation
              (createId (c.idEntropy c.calls).1 (c.idEntropy c.calls).2)],
          handled := c.handled ++
            [Update.citationBlockCreate
              (createId (c.idEntropy c.calls).1 (c.idEntropy c.calls).2) t
              s] } := by
  simp [createCitationBlock, nextId, sendUpdate, h]

theorem createDebugInfoBlock_fst_of_not_ended {c : PromptPreprocessController}
    (h : c.endedFlag = false) (i : String) :
    (c.createDebugInfoBlock i).1 =
      { c with
          calls := c.calls + 1,
          stepControllers := c.stepControllers ++
            [StepRef.debug
              (createId (c.idEntropy c.calls).1 (c.idEntropy c.calls).2)],
          handled := c.handled ++
            [Update.debugInfoBlockCreate
              (createId (c.idEntropy c.calls).1 (c.idEntropy c.calls).2)
              i] } := by
  simp [createDebugInfoBlock, nextId, sendUpdate, h]

theorem map_id_set_of_id_eq (l : List PredictionProcessStatusController)
    (k : Nat) (v : PredictionProcessStatusController)
    (hv : v.id = (nodeGetD l k).id) :
    (l.set k v).map PredictionProcessStatusController.id =
      l.map PredictionProcessStatusController.id := by
  apply List.ext_getElem?
  intro j
  rw [List.getElem?_map, List.getElem?_map, List.getElem?_set]
  by_cases hjk : k = j
  · subst hjk
    rw [if_pos rfl]
    by_cases hlt : k < l.length
    · rw [if_pos hlt]
      have hget : l[k]? = some l[k] := List.getElem?_eq_getElem hlt
      have hnode : nodeGetD l k = l[k] := by
        simp [nodeGetD, List.getD_eq_getElem?_getD, hget]
      rw [hnode] at hv
      rw [hget]
      simp [hv]
    · rw [if_neg hlt, List.getElem?_eq_none (Nat.le_of_not_lt hlt)]
  · rw [if_neg hjk]

theorem map_id_set_update_lastSub (l : List PredictionProcessStatusController)
    (k v : Nat) :
    (l.set k { nodeGetD l k with lastSubStatus := v }).map
        PredictionProcessStatusController.id =
      l.map PredictionProcessStatusController.id :=
  map_id_set_of_id_eq l k _ rfl

theorem createStatus_fst_frame {c : PromptPreprocessController}
    (h : c.endedFlag = false) (st : StatusStepState) :
    (c.createStatus st).1.endedFlag = false ∧
    (c.createStatus st).1.idEntropy = c.idEntropy ∧
    (c.createStatus st).1.calls = c.calls + 1 ∧
    (c.createStatus st).1.nodes.map PredictionProcessStatusController.id =
      c.nodes.map PredictionProcessStatusController.id ++
        [createId (c.idEntropy c.calls).1 (c.idEntropy c.calls).2] ∧
    (c.createStatus st).1.stepControllers =
      c.stepControllers ++ [StepRef.status c.nodes.length] ∧
    (c.createStatus st).1.handled = c.handled ++
      [Update.statusCreate
        (createId (c.idEntropy c.calls).1 (c.idEntropy c.calls).2) st none
        none] := by
  refine ⟨?_, ?_, ?_, ?_, ?_, ?_⟩ <;> simp [createStatus, nextId, sendUpdate, h]

theorem createCitationBlock_fst_frame {c : PromptPreprocessController}
    (h : c.endedFlag = false) (t s : String) :
    (c.createCitationBlock t s).1.endedFlag = false ∧
    (c.createCitationBlock t s).1.idEntropy = c.idEntropy ∧
    (c.createCitationBlock t s).1.calls = c.calls + 1 ∧
    (c.createCitationBlock t s).1.nodes = c.nodes ∧
    (c.createCitationBlock t s).1.stepControllers = c.stepControllers ++
      [StepRef.citation
        (createId (c.idEntropy c.calls).1 (c.idEntropy c.calls).2)] ∧
    (c.createCitationBlock t s).1.handled = c.handled ++
      [Update.citationBlockCreate
        (createId (c.idEntropy c.calls).1 (c.idEntropy c.calls).2) t s] := by
  refine ⟨?_, ?_, ?_, ?_, ?_, ?_⟩ <;>
    simp [createCitationBlock, nextId, sendUpdate, h]

theorem createDebugInfoBlock_fst_frame {c : PromptPreprocessController}
    (h : c.endedFlag = false) (i : String) :
    (c.createDebugInfoBlock i).1.endedFlag = false ∧
    (c.createDebugInfoBlock i).1.idEntropy = c.idEntropy ∧
    (c.createDebugInfoBlock i).1.calls = c.calls + 1 ∧
    (c.createDebugInfoBlock i).1.nodes = c.nodes ∧
    (c.createDebugInfoBlock i).1.stepControllers = c.stepControllers ++
      [StepRef.debug
        (createId (c.idEntropy c.calls).1 (c.idEntropy c.calls).2)] ∧
    (c.createDebugInfoBlock i).1.handled = c.handled ++
      [Update.debugInfoBlockCreate
        (createId (c.idEntropy c.calls).1 (c.idEntropy c.calls).2) i] := by
  refine ⟨?_, ?_, ?_, ?_, ?_, ?_⟩ <;>
    simp [createDebugInfoBlock, nextId, sendUpdate, h]

theorem statusCreatedIds_append (us vs : List Update) :
    statusCreatedIds (us ++ vs) =
      statusCreatedIds us ++ statusCreatedIds vs := by
  simp [statusCreatedIds, List.filterMap_append]

theorem citationCreatedIds_append (us vs : List Update) :
    citationCreatedIds (us ++ vs) =
      citationCreatedIds us ++ citationCreatedIds vs := by
  simp [citationCreatedIds, List.filterMap_append]

theorem debugCreatedIds_append (us vs : List Update) :
    debugCreatedIds (us ++ vs) =
      debugCreatedIds us ++ debugCreatedIds vs := by
  simp [debugCreatedIds, List.filterMap_append]

theorem citationIds_append (rs qs : List StepRef) :
    citationIds (rs ++ qs) = citationIds rs ++ citationIds qs := by
  simp [citationIds, List.filterMap_append]

theorem debugIds_append (rs qs : List StepRef) :
    debugIds (rs ++ qs) = debugIds rs ++ debugIds qs := by
  simp [debugIds, List.filterMap_append]

theorem addSubStatus_fst_frame {c : PromptPreprocessController}
    (h : c.endedFlag = false) (k : Nat) (st : StatusStepState) :
    (c.addSubStatus k st).1.endedFlag = false ∧
    (c.addSubStatus k st).1.idEntropy = c.idEntropy ∧
    (c.addSubStatus k st).1.calls = c.calls + 1 ∧
    (c.addSubStatus k st).1.stepControllers = c.stepControllers ∧
    (c.addSubStatus k st).1.handled = c.handled ++
      [Update.statusCreate
        (createId (c.idEntropy c.calls).1 (c.idEntropy c.calls).2) st
        (some (Location.afterId (c.getNestedLastSubStatusBlockId k)))
        (some ((c.nodeD k).indentation + 1))] ∧
    (c.addSubStatus k st).1.nodes.map PredictionProcessStatusController.id =
      c.nodes.map PredictionProcessStatusController.id ++
        [createId (c.idEntropy c.calls).1 (c.idEntropy c.calls).2] := by
  have hnodes : (c.addSubStatus k st).1.nodes =
      (c.nodes ++
        [({ id := createId (c.idEntropy c.calls).1 (c.idEntropy c.calls).2,
            indentation := (c.nodeD k).indentation + 1, lastState := st,
            lastSubStatus := c.nodes.length } :
          PredictionProcessStatusController)]).set k
        { nodeGetD
            (c.nodes ++
              [({ id := createId (c.idEntropy c.calls).1
                    (c.idEntropy c.calls).2,
                  indentation := (c.nodeD k).indentation + 1, lastState := st,
                  lastSubStatus := c.nodes.length } :
                PredictionProcessStatusController)]) k with
          lastSubStatus := c.nodes.length } := by
    simp [addSubStatus, nextId, sendUpdate, h, nodeD]
  refine ⟨?_, ?_, ?_, ?_, ?_, ?_⟩
  · simp [addSubStatus, nextId, sendUpdate, h]
  · simp [addSubStatus, nextId, sendUpdate, h]
  · simp [addSubStatus, nextId, sendUpdate, h]
  · simp [addSubStatus, nextId, sendUpdate, h]
  · simp [addSubStatus, nextId, sendUpdate, h, getNestedLastSubStatusBlockId,
      nodeD]
  · rw [hnodes, map_id_set_update_lastSub, List.map_append]
    rfl

theorem applyStepOp_spec {c : PromptPreprocessController}
    (h : c.endedFlag = false) (op : StepOp) :
    (applyStepOp c op).endedFlag = false ∧
    (applyStepOp c op).idEntropy = c.idEntropy ∧
    (applyStepOp c op).calls = c.calls + 1 ∧
    ∃ u, (applyStepOp c op).handled = c.handled ++ [u] ∧
      createdIdOf u =
        some (createId (c.idEntropy c.calls).1 (c.idEntropy c.calls).2) := by
  cases op with
  | createStatus st =>
    simp only [applyStepOp]
    rw [createStatus_fst_of_not_ended h]
    exact ⟨h, rfl, rfl, ⟨_, rfl, rfl⟩⟩
  | addSubStatus k st =>
    obtain ⟨h1, h2, h3, _, h5, _⟩ := addSubStatus_fst_frame h k st
    exact ⟨h1, h2, h3, ⟨_, h5, rfl⟩⟩
  | createCitationBlock t s =>
    simp only [applyStepOp]
    rw [createCitationBlock_fst_of_not_ended h]
    exact ⟨h, rfl, rfl, ⟨_, rfl, rfl⟩⟩
  | createDebugInfoBlock i =>
    simp only [applyStepOp]
    rw [createDebugInfoBlock_fst_of_not_ended h]
    exact ⟨h, rfl, rfl, ⟨_, rfl, rfl⟩⟩

theorem applyStepOp_state_ids {c : PromptPreprocessController}
    (h : c.endedFlag = false) (op : StepOp)
    (h1 : c.nodes.map PredictionProcessStatusController.id =
      statusCreatedIds c.handled)
    (h2 : citationIds c.stepControllers = citationCreatedIds c.handled)
    (h3 : debugIds c.stepControllers = debugCreatedIds c.handled) :
    (applyStepOp c op).nodes.map PredictionProcessStatusController.id =
      statusCreatedIds (applyStepOp c op).handled ∧
    citationIds (applyStepOp c op).stepControllers =
      citationCreatedIds (applyStepOp c op).handled ∧
    debugIds (applyStepOp c op).stepControllers =
      debugCreatedIds (applyStepOp c op).handled := by
  cases op with
  | createStatus st =>
    obtain ⟨_, _, _, f4, f5, f6⟩ := createStatus_fst_frame h st
    simp only [applyStepOp]
    refine ⟨?_, ?_, ?_⟩
    · rw [f4, f6, statusCreatedIds_append, h1]
      rfl
    · rw [f5, f6, citationIds_append, citationCreatedIds_append, h2]
      rfl
    · rw [f5, f6, debugIds_append, debugCreatedIds_append, h3]
      rfl
  | addSubStatus k st =>
    obtain ⟨_, _, _, f4, f5, f6⟩ := addSubStatus_fst_frame h k st
    simp only [applyStepOp]
    refine ⟨?_, ?_, ?_⟩
    · rw [f6, f5, statusCreatedIds_append, h1]
      rfl
    · rw [f4, f5, citationCreatedIds_append, h2]
      simp [citationCreatedIds, citationCreatedIdOf]
    · rw [f4, f5, debugCreatedIds_append, h3]
      simp [debugCreatedIds, debugCreatedIdOf]
  | createCitationBlock t s =>
    obtain ⟨_, _, _, f4, f5, f6⟩ := createCitationBlock_fst_frame h t s
    simp only [applyStepOp]
    refine ⟨?_, ?_, ?_⟩
    · rw [f4, f6, statusCreatedIds_append, h1]
      simp [statusCreatedIds, statusCreatedIdOf]
    · rw [f5, f6, citationIds_append, citationCreatedIds_append, h2]
      rfl
    · rw [f5, f6, debugIds_append, debugCreatedIds_append, h3]
      rfl
  | createDebugInfoBlock i =>
    obtain ⟨_, _, _, f4, f5, f6⟩ := createDebugInfoBlock_fst_frame h i
    simp only [applyStepOp]
    refine ⟨?_, ?_, ?_⟩
    · rw [f4, f6, statusCreatedIds_append, h1]
      simp [statusCreatedIds, statusCreatedIdOf]
    · rw [f5, f6, citationIds_append, citationCreatedIds_append, h2]
      rfl
    · rw [f5, f6, debugIds_append, debugCreatedIds_append, h3]
      rfl

end PromptPreprocessController

theorem runStepOps_spec (ops : List StepOp) (c : PromptPreprocessController)
    (h : c.endedFlag = false) :
    (runStepOps c ops).endedFlag = false ∧
    (runStepOps c ops).idEntropy = c.idEntropy ∧
    (runStepOps c ops).calls = c.calls + ops.length ∧
    createdIds (runStepOps c ops).handled =
      createdIds c.handled ++
        (List.range ops.length).map
          (fun i => createId (c.idEntropy (c.calls + i)).1
            (c.idEntropy (c.calls + i)).2) := by
  induction ops generalizing c with
  | nil => exact ⟨h, rfl, rfl, by simp [runStepOps]⟩
  | cons op rest ih =>
    obtain ⟨hf, he, hc, u, hu, hid⟩ :=
      PromptPreprocessController.applyStepOp_spec h op
    have hrec := ih (applyStepOp c op) hf
    have hrun : runStepOps c (op :: rest) = runStepOps (applyStepOp c op) rest :=
      rfl
    rw [hrun]
    refine ⟨hrec.1, hrec.2.1.trans he, ?_, ?_⟩
    · rw [hrec.2.2.1, hc]
      simp [List.length_cons]
      omega
    · have hids := hrec.2.2.2
      simp only [he, hc] at hids
      rw [hids, hu]
      have hcreated : createdIds (c.handled ++ [u]) =
          createdIds c.handled ++
            [createId (c.idEntropy c.calls).1 (c.idEntropy c.calls).2] := by
        simp [createdIds, List.filterMap_append, List.filterMap_cons, hid]
      rw [hcreated]
      rw [List.length_cons, range_map_shift
        (fun j => createId (c.idEntropy j).1 (c.idEntropy j).2) c.calls
        rest.length]
      simp

theorem runStepOps_state_ids (ops : List StepOp)
    (c : PromptPreprocessController) (h : c.endedFlag = false)
    (h1 : c.nodes.map PredictionProcessStatusController.id =
      statusCreatedIds c.handled)
    (h2 : citationIds c.stepControllers = citationCreatedIds c.handled)
    (h3 : debugIds c.stepControllers = debugCreatedIds c.handled) :
    (runStepOps c ops).nodes.map PredictionProcessStatusController.id =
      statusCreatedIds (runStepOps c ops).handled ∧
    citationIds (runStepOps c ops).stepControllers =
      citationCreatedIds (runStepOps c ops).handled ∧
    debugIds (runStepOps c ops).stepControllers =
      debugCreatedIds (runStepOps c ops).handled := by
  induction ops generalizing c with
  | nil => exact ⟨h1, h2, h3⟩
  | cons op rest ih =>
    obtain ⟨hf, _, _, _, _, _⟩ :=
      PromptPreprocessController.applyStepOp_spec h op
    obtain ⟨g1, g2, g3⟩ :=
      PromptPreprocessController.applyStepOp_state_ids h op h1 h2 h3
    exact ih (applyStepOp c op) hf g1 g2 g3

theorem filterMap_sublist_of_imp {α β : Type} (f g : α → Option β)
    (hfg : ∀ a b, f a = some b → g a = some b) (l : List α) :
    List.Sublist (l.filterMap f) (l.filterMap g) := by
  induction l with
  | nil => exact List.nil_sublist _
  | cons a l ih =>
    rw [List.filterMap_cons, List.filterMap_cons]
    cases hf : f a with
    | some b =>
      rw [hfg a b hf]
      exact ih.cons₂ b
    | none =>
      cases hg : g a with
      | some b2 => exact ih.cons b2
      | none => exact ih

/-! ## Claim theorems -/

/-- C1: pushing any finite sequence of fragments one by one into a fresh
OngoingPrediction and then calling `finish` yields an awaited result whose
aggregated content is the concatenation of the pushed fragments in push
order; an iteration of the fragment sequence begun at any point `j` of the
run (its buffer replayed, then the remaining fragments delivered live)
observes exactly the pushed fragments in push order and then completes
normally. -/
theorem c1_push_finish_aggregation (fs : List String)
    (stats modelInfo : String) (j : Nat) (hj : j ≤ fs.length) :
    ((OngoingPrediction.create.pushAll fs).finish stats modelInfo).awaited =
      some (PredictionTerminal.succeeded (String.join fs) stats modelInfo) ∧
    OngoingPrediction.iterationFragments
        (OngoingPrediction.create.pushAll (fs.take j)) (fs.drop j) = fs ∧
    OngoingPrediction.iterOutcome
        ((OngoingPrediction.create.pushAll fs).finish stats modelInfo) =
      OngoingPrediction.IterOutcome.completed := by
  have h1 := OngoingPrediction.pushAll_spec fs OngoingPrediction.create rfl
  have h2 := OngoingPrediction.pushAll_spec (fs.take j)
    OngoingPrediction.create rfl
  have hfrag : (OngoingPrediction.create.pushAll fs).fragments = fs := by
    simpa [OngoingPrediction.create] using h1.1
  have hterm := h1.2
  have hfrag2 :
      (OngoingPrediction.create.pushAll (fs.take j)).fragments = fs.take j := by
    simpa [OngoingPrediction.create] using h2.1
  refine ⟨?_, ?_, ?_⟩
  · simp [OngoingPrediction.finish, OngoingPrediction.awaited, hterm, hfrag]
  · simp [OngoingPrediction.iterationFragments, hfrag2]
  · simp [OngoingPrediction.finish, OngoingPrediction.iterOutcome, hterm]

/-- Witness for C1 at fragments `["Hel", "lo"]`, an iteration begun after the
first push. -/
theorem c1_witness :
    ((OngoingPrediction.create.pushAll ["Hel", "lo"]).finish "st" "mi").awaited
        = some (PredictionTerminal.succeeded (String.join ["Hel", "lo"]) "st"
          "mi") ∧
    OngoingPrediction.iterationFragments
        (OngoingPrediction.create.pushAll (["Hel", "lo"].take 1))
        (["Hel", "lo"].drop 1) = ["Hel", "lo"] ∧
    OngoingPrediction.iterOutcome
        ((OngoingPrediction.create.pushAll ["Hel", "lo"]).finish "st" "mi") =
      OngoingPrediction.IterOutcome.completed :=
  c1_push_finish_aggregation ["Hel", "lo"] "st" "mi" 1 (by decide)

/-- C2: when `complete` runs (model loaded, validation succeeding), the
single channel it opens carries a config whose `inputPrefix` and
`inputSuffix` are the empty string regardless of the caller's config, whose
`stopStrings` is the empty list unless the caller's config explicitly set
`stopStrings` (in which case the caller's value is sent), and whose other
entries are the caller's; when `respond` runs, the validated chat history
and config are sent on the channel unmodified. -/
theorem c2_complete_config_policy (m : LLMModel)
    (vc : String → LLMCompletionOpts →
      Except String (String × LLMCompletionOpts))
    (vr : LLMChatHistory → LLMChatResponseOpts →
      Except String (LLMChatHistory × LLMChatResponseOpts))
    (prompt : String) (opts : LLMCompletionOpts)
    (history : LLMChatHistory) (opts2 : LLMChatResponseOpts)
    (p' : String) (o' : LLMCompletionOpts)
    (h' : LLMChatHistory) (o2' : LLMChatResponseOpts)
    (hm : m.loaded = true)
    (hvc : vc prompt opts = Except.ok (p', o'))
    (hvr : vr history opts2 = Except.ok (h', o2')) :
    (∃ payload,
      (m.complete vc prompt opts).2 =
        [ChannelAction.createChannel "predict" payload] ∧
      payload.config.inputPrefix = some "" ∧
      payload.config.inputSuffix = some "" ∧
      ((o'.config.getD {}).stopStrings = none →
        payload.config.stopStrings = some []) ∧
      (∀ ss, (o'.config.getD {}).stopStrings = some ss →
        payload.config.stopStrings = some ss) ∧
      payload.config.extra = (o'.config.getD {}).extra ∧
      payload.history = [⟨"user", p'⟩]) ∧
    (m.respond vr history opts2).2 =
      [ChannelAction.createChannel "predict"
        { modelSpecifier := m.specifier,
          history := h',
          config := o2'.config.getD {},
          structured := o2'.structured }] := by
  constructor
  · refine ⟨(⟨m.specifier, [⟨"user", p'⟩],
        LLMModel.completeMergedConfig (o'.config.getD {}), o'.structured⟩ :
        PredictChannelPayload), ?_, ?_, ?_, ?_, ?_, ?_, ?_⟩
    · simp [LLMModel.complete, hm, hvc]
    · simp [LLMModel.completeMergedConfig]
    · simp [LLMModel.completeMergedConfig]
    · intro hnone
      simp [LLMModel.completeMergedConfig, hnone, Option.orElse]
    · intro ss hss
      simp [LLMModel.completeMergedConfig, hss, Option.orElse]
    · simp [LLMModel.completeMergedConfig]
    · rfl
  · simp [LLMModel.respond, hm, hvr]

/-- Witness for C2: a loaded model, identity validators, a caller config
that sets `stopStrings`, `inputPrefix` and `inputSuffix`. -/
theorem c2_witness :
    (∃ payload,
      ((⟨"spec", true⟩ : LLMModel).complete (fun p o => Except.ok (p, o))
        "2+2="
        (⟨some ⟨some ["<END>"], some "PRE", some "SUF", []⟩, none⟩ :
          LLMCompletionOpts)).2 =
        [ChannelAction.createChannel "predict" payload] ∧
      payload.config.inputPrefix = some "" ∧
      payload.config.inputSuffix = some "" ∧
      (((⟨some ⟨some ["<END>"], some "PRE", some "SUF", []⟩, none⟩ :
          LLMCompletionOpts).config.getD {}).stopStrings = none →
        payload.config.stopStrings = some []) ∧
      (∀ ss, ((⟨some ⟨some ["<END>"], some "PRE", some "SUF", []⟩, none⟩ :
          LLMCompletionOpts).config.getD {}).stopStrings = some ss →
        payload.config.stopStrings = some ss) ∧
      payload.config.extra =
        ((⟨some ⟨some ["<END>"], some "PRE", some "SUF", []⟩, none⟩ :
          LLMCompletionOpts).config.getD {}).extra ∧
      payload.history = [⟨"user", "2+2="⟩]) ∧
    ((⟨"spec", true⟩ : LLMModel).respond (fun h o => Except.ok (h, o))
        ([⟨"user", "hi"⟩] : LLMChatHistory) {}).2 =
      [ChannelAction.createChannel "predict"
        { modelSpecifier := "spec",
          history := ([⟨"user", "hi"⟩] : LLMChatHistory),
          config := ({} : LLMChatResponseOpts).config.getD {},
          structured := ({} : LLMChatResponseOpts).structured }] :=
  c2_complete_config_policy ⟨"spec", true⟩ (fun p o => Except.ok (p, o))
    (fun h o => Except.ok (h, o)) "2+2="
    (⟨some ⟨some ["<END>"], some "PRE", some "SUF", []⟩, none⟩ :
      LLMCompletionOpts)
    ([⟨"user", "hi"⟩] : LLMChatHistory) {} "2+2="
    (⟨some ⟨some ["<END>"], some "PRE", some "SUF", []⟩, none⟩ :
      LLMCompletionOpts)
    ([⟨"user", "hi"⟩] : LLMChatHistory) {} rfl rfl rfl

/-- C7: a call to `complete` or `respond` on an unloaded model handle, or
whose input the schema validator rejects, returns a descriptive error and
performs no channel action at all (no channel is created, no message sent,
no partial side effect). -/
theorem c7_validation_before_channel (m : LLMModel)
    (vc : String → LLMCompletionOpts →
      Except String (String × LLMCompletionOpts))
    (vr : LLMChatHistory → LLMChatResponseOpts →
      Except String (LLMChatHistory × LLMChatResponseOpts))
    (prompt : String) (opts : LLMCompletionOpts)
    (history : LLMChatHistory) (opts2 : LLMChatResponseOpts)
    (hc : m.loaded = false ∨ ∃ e, vc prompt opts = Except.error e)
    (hr : m.loaded = false ∨ ∃ e, vr history opts2 = Except.error e) :
    (∃ e, (m.complete vc prompt opts).1 = Except.error e) ∧
    (m.complete vc prompt opts).2 = [] ∧
    (∃ e, (m.respond vr history opts2).1 = Except.error e) ∧
    (m.respond vr history opts2).2 = [] := by
  by_cases hl : m.loaded = false
  · refine ⟨⟨"Cannot use `complete` because the model is already unloaded.",
        ?_⟩, ?_,
      ⟨"Cannot use `complete` because the model is already unloaded.", ?_⟩,
        ?_⟩ <;>
      simp [LLMModel.complete, LLMModel.respond, hl]
  · have hl' : m.loaded = true := by
      cases hb : m.loaded
      · exact absurd hb hl
      · rfl
    obtain ⟨e1, he1⟩ := hc.resolve_left hl
    obtain ⟨e2, he2⟩ := hr.resolve_left hl
    refine ⟨⟨e1, ?_⟩, ?_, ⟨e2, ?_⟩, ?_⟩ <;>
      simp [LLMModel.complete, LLMModel.respond, hl', he1, he2]

/-- Witness for C7: a loaded model whose validators reject the input. -/
theorem c7_witness :
    (∃ e, ((⟨"spec", true⟩ : LLMModel).complete
      (fun _ _ => Except.error "bad prompt") "p" {}).1 = Except.error e) ∧
    ((⟨"spec", true⟩ : LLMModel).complete
      (fun _ _ => Except.error "bad prompt") "p" {}).2 = [] ∧
    (∃ e, ((⟨"spec", true⟩ : LLMModel).respond
      (fun _ _ => Except.error "bad history")
      ([] : LLMChatHistory) {}).1 = Except.error e) ∧
    ((⟨"spec", true⟩ : LLMModel).respond
      (fun _ _ => Except.error "bad history")
      ([] : LLMChatHistory) {}).2 = [] :=
  c7_validation_before_channel ⟨"spec", true⟩
    (fun _ _ => Except.error "bad prompt")
    (fun _ _ => Except.error "bad history") "p" {} ([] : LLMChatHistory) {}
    (Or.inr ⟨"bad prompt", rfl⟩) (Or.inr ⟨"bad history", rfl⟩)

/-- C3 (counterexample): the claim that `end()` force-terminates every
waiting/loading status step controller created during the request, including
those created via `addSubStatus`, is false.  Concretely: create a waiting
parent step P via `createStatus`, a waiting child under it via
`addSubStatus`, then call `end()`.  The controller is marked ended and P is
canceled, but the child — still open at arena index 1 — keeps status
`waiting`: its `[ensureEnded]()` hook is never invoked because `addSubStatus`
does not register the child in `stepControllers`. -/
theorem c3_counterexample :
    demoEnded.2 = Except.ok () ∧
    demoEnded.1.endedFlag = true ∧
    (demoEnded.1.nodes.map (fun n => n.lastState.status)) =
      [StatusStepStatus.canceled, StatusStepStatus.waiting] ∧
    ¬ (demoEnded.1.nodeD 1).lastState.status = StatusStepStatus.canceled := by
  refine ⟨rfl, rfl, rfl, by decide⟩

open PromptPreprocessController in
/-- C3 (amended): `end()` force-terminates, exactly once, every still-open
step controller *registered* with this instance — those created through
`createStatus`, `createCitationBlock` and `createDebugInfoBlock`; registered
status steps still `waiting` or `loading` are transitioned per
`cancelIfOpen`.  Status controllers created via `addSubStatus` are not
registered and are left untouched.  The controller is then permanently
marked ended, and a second `end()` changes nothing and performs no further
forced termination. -/
theorem c3_end_forced_termination (c : PromptPreprocessController)
    (h : c.endedFlag = false)
    (hreg : ∀ j, StepRef.status j ∈ c.stepControllers → j < c.nodes.length) :
    (c.endController).2 = Except.ok () ∧
    (c.endController).1.endedFlag = true ∧
    (∀ j, StepRef.status j ∈ c.stepControllers →
      (c.endController).1.nodes[j]? = (c.nodes[j]?).map cancelIfOpen) ∧
    (∀ j, StepRef.status j ∉ c.stepControllers →
      (c.endController).1.nodes[j]? = c.nodes[j]?) ∧
    (c.endController).1.endController = ((c.endController).1, Except.ok ()) := by
  rw [endController_of_not_ended h]
  refine ⟨rfl, rfl, ?_, ?_, ?_⟩
  · intro j hj
    have := endRun_nodes_of_not_ended h c.stepControllers j
    simpa [hj] using this
  · intro j hj
    have := endRun_nodes_of_not_ended h c.stepControllers j
    simpa [hj] using this
  · have hframe := endRun_fst_frame c.stepControllers c
    have hsteps : ({ (c.endRun c.stepControllers).1 with endedFlag := true } :
        PromptPreprocessController).stepControllers = c.stepControllers := by
      simpa using hframe.2.2.1
    have hlen : ({ (c.endRun c.stepControllers).1 with endedFlag := true } :
        PromptPreprocessController).nodes.length = c.nodes.length := by
      simpa using hframe.2.2.2.2
    have hall : ∀ j, StepRef.status j ∈
        ({ (c.endRun c.stepControllers).1 with endedFlag := true } :
          PromptPreprocessController).stepControllers →
        ¬ ((({ (c.endRun c.stepControllers).1 with endedFlag := true } :
            PromptPreprocessController).nodeD j).lastState.status =
              StatusStepStatus.loading
          ∨ (({ (c.endRun c.stepControllers).1 with endedFlag := true } :
            PromptPreprocessController).nodeD j).lastState.status =
              StatusStepStatus.waiting) := by
      intro j hj
      rw [hsteps] at hj
      have hjlt : j < c.nodes.length := hreg j hj
      obtain ⟨n, hn⟩ : ∃ n, c.nodes[j]? = some n :=
        ⟨c.nodes[j], List.getElem?_eq_getElem hjlt⟩
      have hnodes := endRun_nodes_of_not_ended h c.stepControllers j
      rw [if_pos hj, hn] at hnodes
      have hnode : ({ (c.endRun c.stepControllers).1 with endedFlag := true } :
          PromptPreprocessController).nodeD j = cancelIfOpen n := by
        apply nodeD_of_getElem?
        simpa using hnodes
      rw [hnode]
      exact cancelIfOpen_not_open n
    have hnoop := endRun_noop _ _ hall
    rw [endController, hnoop]

/-- Witness for C3 (amended) on a controller holding waiting, loading and
done status steps, a citation block and a debug info block. -/
theorem c3_witness :
    (mixE.1.endController).2 = Except.ok () ∧
    (mixE.1.endController).1.endedFlag = true ∧
    (∀ j, StepRef.status j ∈ mixE.1.stepControllers →
      (mixE.1.endController).1.nodes[j]? =
        (mixE.1.nodes[j]?).map cancelIfOpen) ∧
    (∀ j, StepRef.status j ∉ mixE.1.stepControllers →
      (mixE.1.endController).1.nodes[j]? = mixE.1.nodes[j]?) ∧
    (mixE.1.endController).1.endController =
      ((mixE.1.endController).1, Except.ok ()) :=
  c3_end_forced_termination mixE.1 rfl (by
    intro j hj
    have hsteps : mixE.1.stepControllers =
        [StepRef.status 0, StepRef.status 1, StepRef.status 2,
         StepRef.citation "3-r", StepRef.debug "4-r"] := by decide
    have hlen : mixE.1.nodes.length = 3 := by decide
    rw [hsteps] at hj
    rw [hlen]
    simp only [List.mem_cons, List.not_mem_nil, or_false] at hj
    rcases hj with h | h | h | h | h <;> first
      | (cases h; omega)
      | (exact absurd h (by simp)))

open PromptPreprocessController in
/-- C4: after `end()` has run on a live controller, every `sendUpdate` call
raises the "Prediction process has ended." error; nothing reaches
`coprocessor.handleUpdate` (in this embedding an update is recorded only on
the `Except.ok` path, and no ok state exists). -/
theorem c4_sendUpdate_after_end (c : PromptPreprocessController) (u : Update)
    (h : c.endedFlag = false) :
    ((c.endController).1).sendUpdate u =
      Except.error "Prediction process has ended." := by
  rw [endController_of_not_ended h]
  exact sendUpdate_of_ended rfl u

/-- Witness for C4: a controller with one step, ended, then `sendUpdate`. -/
theorem c4_witness :
    ((demoParent.1.endController).1).sendUpdate
      (Update.debugInfoBlockCreate "id" "dbg") =
      Except.error "Prediction process has ended." :=
  c4_sendUpdate_after_end demoParent.1 (Update.debugInfoBlockCreate "id" "dbg")
    rfl

open PromptPreprocessController in
/-- C5: `end()` on a live controller transitions each registered waiting or
loading status step to canceled preserving its last text, leaves each done
step's state unchanged, and leaves citation-block and debug-info-block
controllers unaffected: they carry no mutable state, their hooks are no-ops,
and the updates `end()` emits are all `status.update`s. -/
theorem c5_forced_termination_effects (c : PromptPreprocessController)
    (h : c.endedFlag = false) :
    (∀ j n, c.nodes[j]? = some n → StepRef.status j ∈ c.stepControllers →
      ((n.lastState.status = StatusStepStatus.waiting ∨
          n.lastState.status = StatusStepStatus.loading →
        (c.endController).1.nodes[j]? =
          some { n with lastState :=
            ⟨StatusStepStatus.canceled, n.lastState.text⟩ }) ∧
       (n.lastState.status = StatusStepStatus.done →
        (c.endController).1.nodes[j]? = some n))) ∧
    (∃ us, (c.endController).1.handled = c.handled ++ us ∧
      ∀ u ∈ us, ∃ i s, u = Update.statusUpdate i s) := by
  rw [endController_of_not_ended h]
  constructor
  · intro j n hn hmem
    have hnodes0 := endRun_nodes_of_not_ended h c.stepControllers j
    rw [if_pos hmem, hn] at hnodes0
    have hnodes : (c.endRun c.stepControllers).1.nodes[j]? =
        some (cancelIfOpen n) := by
      simpa using hnodes0
    constructor
    · intro hopen
      have hco : cancelIfOpen n =
          { n with lastState :=
            ⟨StatusStepStatus.canceled, n.lastState.text⟩ } := by
        unfold cancelIfOpen
        rw [if_pos (Or.symm hopen)]
      rw [hco] at hnodes
      simpa using hnodes
    · intro hdone
      have hco : cancelIfOpen n = n := by
        unfold cancelIfOpen
        rw [if_neg (by simp [hdone])]
      rw [hco] at hnodes
      simpa using hnodes
  · obtain ⟨us, hus, hall⟩ := endRun_handled_of_not_ended h c.stepControllers
    exact ⟨us, by simpa using hus, hall⟩

/-- Witness for C5 on the waiting / loading / done / citation / debug
controller. -/
theorem c5_witness :
    (∀ j n, mixE.1.nodes[j]? = some n →
      StepRef.status j ∈ mixE.1.stepControllers →
      ((n.lastState.status = StatusStepStatus.waiting ∨
          n.lastState.status = StatusStepStatus.loading →
        (mixE.1.endController).1.nodes[j]? =
          some { n with lastState :=
            ⟨StatusStepStatus.canceled, n.lastState.text⟩ }) ∧
       (n.lastState.status = StatusStepStatus.done →
        (mixE.1.endController).1.nodes[j]? = some n))) ∧
    (∃ us, (mixE.1.endController).1.handled = mixE.1.handled ++ us ∧
      ∀ u ∈ us, ∃ i s, u = Update.statusUpdate i s) :=
  c5_forced_termination_effects mixE.1 rfl

open PromptPreprocessController in
/-- C10: on a controller that has ended, `setState(s)` throws the
"Prediction process has ended." error and emits nothing, but the step's
recorded last state has already been overwritten with `s` before the throw;
`setText(t)` likewise overwrites the recorded text before throwing. -/
theorem c10_setState_after_end (c : PromptPreprocessController) (k : Nat)
    (s : StatusStepState) (t : String) (h : c.endedFlag = true) :
    (c.setState k s).2 = Except.error "Prediction process has ended." ∧
    (c.setState k s).1.nodes[k]? =
      (c.nodes[k]?).map (fun n => { n with lastState := s }) ∧
    (c.setState k s).1.handled = c.handled ∧
    (c.setText k t).2 = Except.error "Prediction process has ended." ∧
    (c.setText k t).1.nodes[k]? =
      (c.nodes[k]?).map
        (fun n => { n with lastState := { n.lastState with text := t } }) ∧
    (c.setText k t).1.handled = c.handled := by
  have hset : ∀ f : PredictionProcessStatusController →
      PredictionProcessStatusController,
      (c.nodes.set k (f (c.nodeD k)))[k]? = (c.nodes[k]?).map f := by
    intro f
    by_cases hlt : k < c.nodes.length
    · rw [List.getElem?_set_self hlt]
      have hget : c.nodes[k]? = some c.nodes[k] := List.getElem?_eq_getElem hlt
      rw [hget, nodeD_of_getElem? hget]
      rfl
    · have hnone : c.nodes[k]? = none :=
        List.getElem?_eq_none (Nat.le_of_not_lt hlt)
      have hnone2 : (c.nodes.set k (f (c.nodeD k)))[k]? = none :=
        List.getElem?_eq_none (by simpa using Nat.le_of_not_lt hlt)
      rw [hnone, hnone2]
      rfl
  refine ⟨?_, ?_, ?_, ?_, ?_, ?_⟩
  · simp [setState, sendUpdate, h]
  · rw [setState_fst_nodes]
    exact hset (fun n => { n with lastState := s })
  · simp [setState, sendUpdate, h]
  · simp [setText, sendUpdate, h]
  · have : (c.setText k t).1.nodes =
        c.nodes.set k
          { c.nodeD k with
            lastState := { (c.nodeD k).lastState with text := t } } := by
      unfold setText sendUpdate
      simp [h]
    rw [this]
    exact hset
      (fun n => { n with lastState := { n.lastState with text := t } })
  · simp [setText, sendUpdate, h]

/-- Witness for C10 on the ended controller holding P and its sub-status. -/
theorem c10_witness :
    (demoEnded.1.setState 0 ⟨StatusStepStatus.done, "x"⟩).2 =
      Except.error "Prediction process has ended." ∧
    (demoEnded.1.setState 0 ⟨StatusStepStatus.done, "x"⟩).1.nodes[0]? =
      (demoEnded.1.nodes[0]?).map
        (fun n => { n with lastState := ⟨StatusStepStatus.done, "x"⟩ }) ∧
    (demoEnded.1.setState 0 ⟨StatusStepStatus.done, "x"⟩).1.handled =
      demoEnded.1.handled ∧
    (demoEnded.1.setText 0 "y").2 =
      Except.error "Prediction process has ended." ∧
    (demoEnded.1.setText 0 "y").1.nodes[0]? =
      (demoEnded.1.nodes[0]?).map
        (fun n => { n with lastState := { n.lastState with text := "y" } }) ∧
    (demoEnded.1.setText 0 "y").1.handled = demoEnded.1.handled :=
  c10_setState_after_end demoEnded.1 0 ⟨StatusStepStatus.done, "x"⟩ "y" rfl

open PromptPreprocessController in
/-- C6: every `addSubStatus` call on a live controller emits exactly one
`status.create` update whose location is `afterId` of the node reached by
walking the `lastSubStatus` chain to its fixed point (the deepest-nested
last-added descendant) and whose indentation is the parent's indentation
plus one; in particular C1 then C2 under the same parent P emits C2 located
after C1 at indentation 1, and with a grandchild G added under C1 first, a
later C2 under P is located after G. -/
theorem c6_addSubStatus_location (c : PromptPreprocessController) (k : Nat)
    (st : StatusStepState) (h : c.endedFlag = false) :
    ((c.addSubStatus k st).1.handled = c.handled ++
      [Update.statusCreate
        (createId (c.idEntropy c.calls).1 (c.idEntropy c.calls).2) st
        (some (Location.afterId (c.getNestedLastSubStatusBlockId k)))
        (some ((c.nodeD k).indentation + 1))]) ∧
    demoSib1.1.handled.getLast? =
      some (Update.statusCreate "1-r" ⟨StatusStepStatus.waiting, "C1"⟩
        (some (Location.afterId "0-r")) (some 1)) ∧
    demoSib2.1.handled.getLast? =
      some (Update.statusCreate "2-r" ⟨StatusStepStatus.waiting, "C2"⟩
        (some (Location.afterId "1-r")) (some 1)) ∧
    demoNested.1.handled.getLast? =
      some (Update.statusCreate "3-r" ⟨StatusStepStatus.waiting, "C2"⟩
        (some (Location.afterId "2-r")) (some 1)) :=
  ⟨(addSubStatus_of_not_ended h k st).1, by decide, by decide, by decide⟩

open PromptPreprocessController in
/-- Witness for C6: the general clause applied to P's controller with C1
already present. -/
theorem c6_witness :
    ((demoSib1.1.addSubStatus 0 ⟨StatusStepStatus.done, "w"⟩).1.handled =
      demoSib1.1.handled ++
      [Update.statusCreate
        (createId (demoSib1.1.idEntropy demoSib1.1.calls).1
          (demoSib1.1.idEntropy demoSib1.1.calls).2)
        ⟨StatusStepStatus.done, "w"⟩
        (some (Location.afterId
          (demoSib1.1.getNestedLastSubStatusBlockId 0)))
        (some ((demoSib1.1.nodeD 0).indentation + 1))]) ∧
    demoSib1.1.handled.getLast? =
      some (Update.statusCreate "1-r" ⟨StatusStepStatus.waiting, "C1"⟩
        (some (Location.afterId "0-r")) (some 1)) ∧
    demoSib2.1.handled.getLast? =
      some (Update.statusCreate "2-r" ⟨StatusStepStatus.waiting, "C2"⟩
        (some (Location.afterId "1-r")) (some 1)) ∧
    demoNested.1.handled.getLast? =
      some (Update.statusCreate "3-r" ⟨StatusStepStatus.waiting, "C2"⟩
        (some (Location.afterId "2-r")) (some 1)) :=
  c6_addSubStatus_location demoSib1.1 0 ⟨StatusStepStatus.done, "w"⟩ rfl

/-- C8 (counterexample): step identities are not pairwise distinct: with
`Date.now()` frozen at 0 and `Math.random()` repeating 0.05, two consecutive
`createStatus` calls register two step controllers carrying the same id
"0-05". -/
theorem c8_counterexample :
    collideB.1.nodes.map PredictionProcessStatusController.id =
      ["0-05", "0-05"] ∧
    collideB.1.stepControllers = [StepRef.status 0, StepRef.status 1] ∧
    ¬ (collideB.1.nodes.map PredictionProcessStatusController.id).Nodup := by
  refine ⟨rfl, rfl, by decide⟩

/-- C8 (amended): for every sequence of step-creating calls (`createStatus`,
`addSubStatus`, `createCitationBlock`, `createDebugInfoBlock`) on a fresh
controller, the generated step identities are, in creation order, exactly
`createId` applied to the successive `(Date.now(), Math.random())` draws
(one creation update per call carries them); the status-node, citation-block
and debug-info-block identities recorded in the controller are exactly the
corresponding creation-update identities; and all generated identities are
pairwise distinct provided the rendered draws are pairwise distinct — which
the code does not guarantee.  The id strings are not monotonically ordered
by creation order: with the clock frozen inside one millisecond, the second
status created carries id "5-0.10", lexicographically smaller than the
earlier "5-0.9". -/
theorem c8_ids_in_creation_order (env : Nat → Nat × String)
    (ops : List StepOp)
    (h : ((List.range ops.length).map
      (fun i => createId (env i).1 (env i).2)).Nodup) :
    createdIds
        (runStepOps (PromptPreprocessController.create env) ops).handled =
      (List.range ops.length).map (fun i => createId (env i).1 (env i).2) ∧
    (createdIds
        (runStepOps (PromptPreprocessController.create env) ops).handled).Nodup ∧
    (runStepOps (PromptPreprocessController.create env) ops).nodes.map
        PredictionProcessStatusController.id =
      statusCreatedIds
        (runStepOps (PromptPreprocessController.create env) ops).handled ∧
    citationIds
        (runStepOps (PromptPreprocessController.create env) ops).stepControllers =
      citationCreatedIds
        (runStepOps (PromptPreprocessController.create env) ops).handled ∧
    debugIds
        (runStepOps (PromptPreprocessController.create env) ops).stepControllers =
      debugCreatedIds
        (runStepOps (PromptPreprocessController.create env) ops).handled ∧
    ((runStepOps (PromptPreprocessController.create env) ops).nodes.map
        PredictionProcessStatusController.id).Nodup ∧
    (citationIds
        (runStepOps (PromptPreprocessController.create env) ops).stepControllers).Nodup ∧
    (debugIds
        (runStepOps (PromptPreprocessController.create env) ops).stepControllers).Nodup ∧
    demoMonoB.1.nodes.map PredictionProcessStatusController.id =
      ["5-0.9", "5-0.10"] ∧
    ¬ ("5-0.9" ≤ "5-0.10") := by
  obtain ⟨_, _, _, hids⟩ :=
    runStepOps_spec ops (PromptPreprocessController.create env) rfl
  have h1 : createdIds
      (runStepOps (PromptPreprocessController.create env) ops).handled =
      (List.range ops.length).map (fun i => createId (env i).1 (env i).2) := by
    simpa [PromptPreprocessController.create, createdIds] using hids
  obtain ⟨hs1, hs2, hs3⟩ :=
    runStepOps_state_ids ops (PromptPreprocessController.create env) rfl rfl
      rfl rfl
  have hnd : (createdIds
      (runStepOps (PromptPreprocessController.create env) ops).handled).Nodup :=
    h1 ▸ h
  have hsub1 : List.Sublist
      (statusCreatedIds
        (runStepOps (PromptPreprocessController.create env) ops).handled)
      (createdIds
        (runStepOps (PromptPreprocessController.create env) ops).handled) :=
    filterMap_sublist_of_imp statusCreatedIdOf createdIdOf
      (by
        intro u b hb
        cases u <;> simp_all [statusCreatedIdOf, createdIdOf]) _
  have hsub2 : List.Sublist
      (citationCreatedIds
        (runStepOps (PromptPreprocessController.create env) ops).handled)
      (createdIds
        (runStepOps (PromptPreprocessController.create env) ops).handled) :=
    filterMap_sublist_of_imp citationCreatedIdOf createdIdOf
      (by
        intro u b hb
        cases u <;> simp_all [citationCreatedIdOf, createdIdOf]) _
  have hsub3 : List.Sublist
      (debugCreatedIds
        (runStepOps (PromptPreprocessController.create env) ops).handled)
      (createdIds
        (runStepOps (PromptPreprocessController.create env) ops).handled) :=
    filterMap_sublist_of_imp debugCreatedIdOf createdIdOf
      (by
        intro u b hb
        cases u <;> simp_all [debugCreatedIdOf, createdIdOf]) _
  refine ⟨h1, hnd, hs1, hs2, hs3, ?_, ?_, ?_, by decide, by
    rw [String.le_iff_toList_le]
    decide⟩
  · rw [hs1]
    exact List.Nodup.sublist hsub1 hnd
  · rw [hs2]
    exact List.Nodup.sublist hsub2 hnd
  · rw [hs3]
    exact List.Nodup.sublist hsub3 hnd

/-- Witness for C8 (amended): a mixed run — a status, a sub-status under
it, a citation block and a debug info block — under the sequential
oracle. -/
theorem c8_witness :
    createdIds
        (runStepOps (PromptPreprocessController.create entropySeq)
          [StepOp.createStatus ⟨StatusStepStatus.waiting, "a"⟩,
           StepOp.addSubStatus 0 ⟨StatusStepStatus.waiting, "b"⟩,
           StepOp.createCitationBlock "t" "s",
           StepOp.createDebugInfoBlock "d"]).handled =
      (List.range
        ([StepOp.createStatus ⟨StatusStepStatus.waiting, "a"⟩,
          StepOp.addSubStatus 0 ⟨StatusStepStatus.waiting, "b"⟩,
          StepOp.createCitationBlock "t" "s",
          StepOp.createDebugInfoBlock "d"] : List StepOp).length).map
        (fun i => createId (entropySeq i).1 (entropySeq i).2) ∧
    (createdIds
        (runStepOps (PromptPreprocessController.create entropySeq)
          [StepOp.createStatus ⟨StatusStepStatus.waiting, "a"⟩,
           StepOp.addSubStatus 0 ⟨StatusStepStatus.waiting, "b"⟩,
           StepOp.createCitationBlock "t" "s",
           StepOp.createDebugInfoBlock "d"]).handled).Nodup ∧
    (runStepOps (PromptPreprocessController.create entropySeq)
        [StepOp.createStatus ⟨StatusStepStatus.waiting, "a"⟩,
         StepOp.addSubStatus 0 ⟨StatusStepStatus.waiting, "b"⟩,
         StepOp.createCitationBlock "t" "s",
         StepOp.createDebugInfoBlock "d"]).nodes.map
        PredictionProcessStatusController.id =
      statusCreatedIds
        (runStepOps (PromptPreprocessController.create entropySeq)
          [StepOp.createStatus ⟨StatusStepStatus.waiting, "a"⟩,
           StepOp.addSubStatus 0 ⟨StatusStepStatus.waiting, "b"⟩,
           StepOp.createCitationBlock "t" "s",
           StepOp.createDebugInfoBlock "d"]).handled ∧
    citationIds
        (runStepOps (PromptPreprocessController.create entropySeq)
          [StepOp.createStatus ⟨StatusStepStatus.waiting, "a"⟩,
           StepOp.addSubStatus 0 ⟨StatusStepStatus.waiting, "b"⟩,
           StepOp.createCitationBlock "t" "s",
           StepOp.createDebugInfoBlock "d"]).stepControllers =
      citationCreatedIds
        (runStepOps (PromptPreprocessController.create entropySeq)
          [StepOp.createStatus ⟨StatusStepStatus.waiting, "a"⟩,
           StepOp.addSubStatus 0 ⟨StatusStepStatus.waiting, "b"⟩,
           StepOp.createCitationBlock "t" "s",
           StepOp.createDebugInfoBlock "d"]).handled ∧
    debugIds
        (runStepOps (PromptPreprocessController.create entropySeq)
          [StepOp.createStatus ⟨StatusStepStatus.waiting, "a"⟩,
           StepOp.addSubStatus 0 ⟨StatusStepStatus.waiting, "b"⟩,
           StepOp.createCitationBlock "t" "s",
           StepOp.createDebugInfoBlock "d"]).stepControllers =
      debugCreatedIds
        (runStepOps (PromptPreprocessController.create entropySeq)
          [StepOp.createStatus ⟨StatusStepStatus.waiting, "a"⟩,
           StepOp.addSubStatus 0 ⟨StatusStepStatus.waiting, "b"⟩,
           StepOp.createCitationBlock "t" "s",
           StepOp.createDebugInfoBlock "d"]).handled ∧
    ((runStepOps (PromptPreprocessController.create entropySeq)
        [StepOp.createStatus ⟨StatusStepStatus.waiting, "a"⟩,
         StepOp.addSubStatus 0 ⟨StatusStepStatus.waiting, "b"⟩,
         StepOp.createCitationBlock "t" "s",
         StepOp.createDebugInfoBlock "d"]).nodes.map
        PredictionProcessStatusController.id).Nodup ∧
    (citationIds
        (runStepOps (PromptPreprocessController.create entropySeq)
          [StepOp.createStatus ⟨StatusStepStatus.waiting, "a"⟩,
           StepOp.addSubStatus 0 ⟨StatusStepStatus.waiting, "b"⟩,
           StepOp.createCitationBlock "t" "s",
           StepOp.createDebugInfoBlock "d"]).stepControllers).Nodup ∧
    (debugIds
        (runStepOps (PromptPreprocessController.create entropySeq)
          [StepOp.createStatus ⟨StatusStepStatus.waiting, "a"⟩,
           StepOp.addSubStatus 0 ⟨StatusStepStatus.waiting, "b"⟩,
           StepOp.createCitationBlock "t" "s",
           StepOp.createDebugInfoBlock "d"]).stepControllers).Nodup ∧
    demoMonoB.1.nodes.map PredictionProcessStatusController.id =
      ["5-0.9", "5-0.10"] ∧
    ¬ ("5-0.9" ≤ "5-0.10") :=
  c8_ids_in_creation_order entropySeq
    [StepOp.createStatus ⟨StatusStepStatus.waiting, "a"⟩,
     StepOp.addSubStatus 0 ⟨StatusStepStatus.waiting, "b"⟩,
     StepOp.createCitationBlock "t" "s",
     StepOp.createDebugInfoBlock "d"]
    (by decide)

/-- C9: `UtilBinary.check()` resolves successfully for every filesystem
state and platform — even when no executable exists at the computed path —
because the `access` probe's returned promise is never awaited inside the
`try` block and `access` called with a string path never throws
synchronously; the "Cannot locate required dependencies" branch is
unreachable.  For contrast, the awaited variant rejects exactly when the
file is missing. -/
theorem c9_check_always_resolves (w : Bool) (home name : String)
    (f : String → Bool) (hf : f (utilBinaryPath w home name) = false) :
    (∀ g : String → Bool,
      (UtilBinary.create w home name).check g = Except.ok ()) ∧
    (UtilBinary.create w home name).checkIfAwaited f =
      Except.error (cannotLocateMessage name) := by
  constructor
  · intro g
    rfl
  · simp [UtilBinary.checkIfAwaited, UtilBinary.create, fsAccess, hf]

/-- Witness for C9: win32 lookup of "node" on an empty filesystem. -/
theorem c9_witness :
    (∀ g : String → Bool,
      (UtilBinary.create true "/home/u" "node").check g = Except.ok ()) ∧
    (UtilBinary.create true "/home/u" "node").checkIfAwaited
        (fun _ => false) =
      Except.error (cannotLocateMessage "node") :=
  c9_check_always_resolves true "/home/u" "node" (fun _ => false) rfl
